import Mathlib

/-!
Verification of the Spotify search-and-play core of `AgentTools`
(`src/MiscellaneousTools/SpotifyTools/playback_tools.py`).

Shallow embedding conventions:

* A Python string is a sequence of Unicode code points, embedded as `List Nat`
  (`PyStr`).  `str.lower` is embedded as `pyLower`, built from the full
  Unicode lowercase mapping (the table below lists every code point whose
  `str.lower` image differs from itself, including the one length-two
  mapping of `U+0130`).  The regex keywords of `parse_query` are the ASCII
  letters `b y f r o m`, and no other code point case-matches them under
  `re.IGNORECASE`, so the keyword comparison uses the ASCII case mapping
  `toLowerCp`.  The whitespace class used by `str.strip` and by the regex
  class `\s` is the standard Unicode whitespace set `isSpaceCp`.
* Python floats are embedded as exact rationals (`ℚ`).  The literal `0.6`
  is the rational `3/5` (written `mkRat 3 5`), and
  `difflib`'s `2.0 * matches / length` is the exact rational
  `mkRat (2 * matches) length`.  For the quantities produced here
  (quotients `2M/T` with tiny integer `M`, `T`) the float comparisons in the
  source and the exact rational comparisons agree.
* `calculate_similarity` calls `difflib.SequenceMatcher(None, a.lower(),
  b.lower()).ratio()`; the whole of `SequenceMatcher.ratio` (CPython's
  `difflib.py`: `__chain_b` junk computation with `autojunk=True`,
  `find_longest_match`, the recursion of `get_matching_blocks`, and
  `_calculate_ratio`) is embedded below.  The `while` loops of
  `find_longest_match` are embedded as fuel recursions whose fuel is an
  upper bound on the number of iterations the guard can allow, so the
  embedded function computes the same fixpoint the loop does.
* Network and process effects (`sp.search`, `sp.devices`,
  `sp.start_playback`, `subprocess.run`) are embedded as an explicit
  environment of `Except`-valued results, one per attempt (the retried
  attempt re-queries), together with an event trace recording each call
  the way the Python code would issue it.  An `Except.error` result stands
  for the call raising a `TransportError`.
-/

/-- A Python string: the list of its Unicode code points. -/
abbrev PyStr := List Nat

/-- ASCII case mapping, used for the `re.IGNORECASE` comparison against
the ASCII keyword letters of `parse_query` (no non-ASCII code point
case-matches `b`, `y`, `f`, `r`, `o` or `m`). -/
def toLowerCp (c : Nat) : Nat :=
  if 65 ≤ c ∧ c ≤ 90 then c + 32 else c

/-- Unicode lowercase mappings of `str.lower` for code points at or
above 128 (the ASCII range is handled directly in `pyLowerChar`),
split into buckets of increasing code points for fast lookup.  Each
entry pairs a code point with the code points of its lowercase
mapping (`U+0130` is the one mapping of length two). -/
def lowerT0 : List (Nat × List Nat) := [(192, [224]), (193, [225]), (194, [226]), (195, [227]),
  (196, [228]), (197, [229]), (198, [230]), (199, [231]), (200, [232]), (201, [233]), (202,
  [234]), (203, [235]), (204, [236]), (205, [237]), (206, [238]), (207, [239]), (208, [240]),
  (209, [241]), (210, [242]), (211, [243]), (212, [244]), (213, [245]), (214, [246]), (216,
  [248]), (217, [249]), (218, [250]), (219, [251]), (220, [252]), (221, [253]), (222, [254]),
  (256, [257]), (258, [259]), (260, [261]), (262, [263]), (264, [265]), (266, [267]), (268,
  [269]), (270, [271]), (272, [273]), (274, [275]), (276, [277]), (278, [279]), (280, [281]),
  (282, [283]), (284, [285]), (286, [287]), (288, [289]), (290, [291]), (292, [293]), (294,
  [295]), (296, [297]), (298, [299]), (300, [301]), (302, [303]), (304, [105, 775]), (306,
  [307]), (308, [309]), (310, [311]), (313, [314]), (315, [316]), (317, [318]), (319, [320]),
  (321, [322]), (323, [324]), (325, [326]), (327, [328]), (330, [331]), (332, [333]), (334,
  [335]), (336, [337]), (338, [339]), (340, [341]), (342, [343]), (344, [345]), (346, [347]),
  (348, [349]), (350, [351]), (352, [353]), (354, [355]), (356, [357]), (358, [359]), (360,
  [361]), (362, [363]), (364, [365]), (366, [367]), (368, [369]), (370, [371]), (372, [373])]

def lowerT1 : List (Nat × List Nat) := [(374, [375]), (376, [255]), (377, [378]), (379, [380]),
  (381, [382]), (385, [595]), (386, [387]), (388, [389]), (390, [596]), (391, [392]), (393,
  [598]), (394, [599]), (395, [396]), (398, [477]), (399, [601]), (400, [603]), (401, [402]),
  (403, [608]), (404, [611]), (406, [617]), (407, [616]), (408, [409]), (412, [623]), (413,
  [626]), (415, [629]), (416, [417]), (418, [419]), (420, [421]), (422, [640]), (423, [424]),
  (425, [643]), (428, [429]), (430, [648]), (431, [432]), (433, [650]), (434, [651]), (435,
  [436]), (437, [438]), (439, [658]), (440, [441]), (444, [445]), (452, [454]), (453, [454]),
  (455, [457]), (456, [457]), (458, [460]), (459, [460]), (461, [462]), (463, [464]), (465,
  [466]), (467, [468]), (469, [470]), (471, [472]), (473, [474]), (475, [476]), (478, [479]),
  (480, [481]), (482, [483]), (484, [485]), (486, [487]), (488, [489]), (490, [491]), (492,
  [493]), (494, [495]), (497, [499]), (498, [499]), (500, [501]), (502, [405]), (503, [447]),
  (504, [505]), (506, [507]), (508, [509]), (510, [511]), (512, [513]), (514, [515]), (516,
  [517]), (518, [519]), (520, [521]), (522, [523]), (524, [525]), (526, [527]), (528, [529]),
  (530, [531]), (532, [533]), (534, [535]), (536, [537]), (538, [539]), (540, [541])]

def lowerT2 : List (Nat × List Nat) := [(542, [543]), (544, [414]), (546, [547]), (548, [549]),
  (550, [551]), (552, [553]), (554, [555]), (556, [557]), (558, [559]), (560, [561]), (562,
  [563]), (570, [11365]), (571, [572]), (573, [410]), (574, [11366]), (577, [578]), (579,
  [384]), (580, [649]), (581, [652]), (582, [583]), (584, [585]), (586, [587]), (588, [589]),
  (590, [591]), (880, [881]), (882, [883]), (886, [887]), (895, [1011]), (902, [940]), (904,
  [941]), (905, [942]), (906, [943]), (908, [972]), (910, [973]), (911, [974]), (913, [945]),
  (914, [946]), (915, [947]), (916, [948]), (917, [949]), (918, [950]), (919, [951]), (920,
  [952]), (921, [953]), (922, [954]), (923, [955]), (924, [956]), (925, [957]), (926, [958]),
  (927, [959]), (928, [960]), (929, [961]), (931, [963]), (932, [964]), (933, [965]), (934,
  [966]), (935, [967]), (936, [968]), (937, [969]), (938, [970]), (939, [971]), (975, [983]),
  (984, [985]), (986, [987]), (988, [989]), (990, [991]), (992, [993]), (994, [995]), (996,
  [997]), (998, [999]), (1000, [1001]), (1002, [1003]), (1004, [1005]), (1006, [1007]), (1012,
  [952]), (1015, [1016]), (1017, [1010]), (1018, [1019]), (1021, [891]), (1022, [892]), (1023,
  [893]), (1024, [1104]), (1025, [1105]), (1026, [1106]), (1027, [1107]), (1028, [1108]),
  (1029, [1109]), (1030, [1110])]

def lowerT3 : List (Nat × List Nat) := [(1031, [1111]), (1032, [1112]), (1033, [1113]), (1034,
  [1114]), (1035, [1115]), (1036, [1116]), (1037, [1117]), (1038, [1118]), (1039, [1119]),
  (1040, [1072]), (1041, [1073]), (1042, [1074]), (1043, [1075]), (1044, [1076]), (1045,
  [1077]), (1046, [1078]), (1047, [1079]), (1048, [1080]), (1049, [1081]), (1050, [1082]),
  (1051, [1083]), (1052, [1084]), (1053, [1085]), (1054, [1086]), (1055, [1087]), (1056,
  [1088]), (1057, [1089]), (1058, [1090]), (1059, [1091]), (1060, [1092]), (1061, [1093]),
  (1062, [1094]), (1063, [1095]), (1064, [1096]), (1065, [1097]), (1066, [1098]), (1067,
  [1099]), (1068, [1100]), (1069, [1101]), (1070, [1102]), (1071, [1103]), (1120, [1121]),
  (1122, [1123]), (1124, [1125]), (1126, [1127]), (1128, [1129]), (1130, [1131]), (1132,
  [1133]), (1134, [1135]), (1136, [1137]), (1138, [1139]), (1140, [1141]), (1142, [1143]),
  (1144, [1145]), (1146, [1147]), (1148, [1149]), (1150, [1151]), (1152, [1153]), (1162,
  [1163]), (1164, [1165]), (1166, [1167]), (1168, [1169]), (1170, [1171]), (1172, [1173]),
  (1174, [1175]), (1176, [1177]), (1178, [1179]), (1180, [1181]), (1182, [1183]), (1184,
  [1185]), (1186, [1187]), (1188, [1189]), (1190, [1191]), (1192, [1193]), (1194, [1195]),
  (1196, [1197]), (1198, [1199]), (1200, [1201]), (1202, [1203]), (1204, [1205]), (1206,
  [1207]), (1208, [1209]), (1210, [1211]), (1212, [1213]), (1214, [1215]), (1216, [1231]),
  (1217, [1218]), (1219, [1220])]

def lowerT4 : List (Nat × List Nat) := [(1221, [1222]), (1223, [1224]), (1225, [1226]), (1227,
  [1228]), (1229, [1230]), (1232, [1233]), (1234, [1235]), (1236, [1237]), (1238, [1239]),
  (1240, [1241]), (1242, [1243]), (1244, [1245]), (1246, [1247]), (1248, [1249]), (1250,
  [1251]), (1252, [1253]), (1254, [1255]), (1256, [1257]), (1258, [1259]), (1260, [1261]),
  (1262, [1263]), (1264, [1265]), (1266, [1267]), (1268, [1269]), (1270, [1271]), (1272,
  [1273]), (1274, [1275]), (1276, [1277]), (1278, [1279]), (1280, [1281]), (1282, [1283]),
  (1284, [1285]), (1286, [1287]), (1288, [1289]), (1290, [1291]), (1292, [1293]), (1294,
  [1295]), (1296, [1297]), (1298, [1299]), (1300, [1301]), (1302, [1303]), (1304, [1305]),
  (1306, [1307]), (1308, [1309]), (1310, [1311]), (1312, [1313]), (1314, [1315]), (1316,
  [1317]), (1318, [1319]), (1320, [1321]), (1322, [1323]), (1324, [1325]), (1326, [1327]),
  (1329, [1377]), (1330, [1378]), (1331, [1379]), (1332, [1380]), (1333, [1381]), (1334,
  [1382]), (1335, [1383]), (1336, [1384]), (1337, [1385]), (1338, [1386]), (1339, [1387]),
  (1340, [1388]), (1341, [1389]), (1342, [1390]), (1343, [1391]), (1344, [1392]), (1345,
  [1393]), (1346, [1394]), (1347, [1395]), (1348, [1396]), (1349, [1397]), (1350, [1398]),
  (1351, [1399]), (1352, [1400]), (1353, [1401]), (1354, [1402]), (1355, [1403]), (1356,
  [1404]), (1357, [1405]), (1358, [1406]), (1359, [1407]), (1360, [1408]), (1361, [1409]),
  (1362, [1410]), (1363, [1411])]

def lowerT5 : List (Nat × List Nat) := [(1364, [1412]), (1365, [1413]), (1366, [1414]), (4256,
  [11520]), (4257, [11521]), (4258, [11522]), (4259, [11523]), (4260, [11524]), (4261,
  [11525]), (4262, [11526]), (4263, [11527]), (4264, [11528]), (4265, [11529]), (4266,
  [11530]), (4267, [11531]), (4268, [11532]), (4269, [11533]), (4270, [11534]), (4271,
  [11535]), (4272, [11536]), (4273, [11537]), (4274, [11538]), (4275, [11539]), (4276,
  [11540]), (4277, [11541]), (4278, [11542]), (4279, [11543]), (4280, [11544]), (4281,
  [11545]), (4282, [11546]), (4283, [11547]), (4284, [11548]), (4285, [11549]), (4286,
  [11550]), (4287, [11551]), (4288, [11552]), (4289, [11553]), (4290, [11554]), (4291,
  [11555]), (4292, [11556]), (4293, [11557]), (4295, [11559]), (4301, [11565]), (5024,
  [43888]), (5025, [43889]), (5026, [43890]), (5027, [43891]), (5028, [43892]), (5029,
  [43893]), (5030, [43894]), (5031, [43895]), (5032, [43896]), (5033, [43897]), (5034,
  [43898]), (5035, [43899]), (5036, [43900]), (5037, [43901]), (5038, [43902]), (5039,
  [43903]), (5040, [43904]), (5041, [43905]), (5042, [43906]), (5043, [43907]), (5044,
  [43908]), (5045, [43909]), (5046, [43910]), (5047, [43911]), (5048, [43912]), (5049,
  [43913]), (5050, [43914]), (5051, [43915]), (5052, [43916]), (5053, [43917]), (5054,
  [43918]), (5055, [43919]), (5056, [43920]), (5057, [43921]), (5058, [43922]), (5059,
  [43923]), (5060, [43924]), (5061, [43925]), (5062, [43926]), (5063, [43927]), (5064,
  [43928]), (5065, [43929]), (5066, [43930]), (5067, [43931]), (5068, [43932])]

def lowerT6 : List (Nat × List Nat) := [(5069, [43933]), (5070, [43934]), (5071, [43935]),
  (5072, [43936]), (5073, [43937]), (5074, [43938]), (5075, [43939]), (5076, [43940]), (5077,
  [43941]), (5078, [43942]), (5079, [43943]), (5080, [43944]), (5081, [43945]), (5082,
  [43946]), (5083, [43947]), (5084, [43948]), (5085, [43949]), (5086, [43950]), (5087,
  [43951]), (5088, [43952]), (5089, [43953]), (5090, [43954]), (5091, [43955]), (5092,
  [43956]), (5093, [43957]), (5094, [43958]), (5095, [43959]), (5096, [43960]), (5097,
  [43961]), (5098, [43962]), (5099, [43963]), (5100, [43964]), (5101, [43965]), (5102,
  [43966]), (5103, [43967]), (5104, [5112]), (5105, [5113]), (5106, [5114]), (5107, [5115]),
  (5108, [5116]), (5109, [5117]), (7312, [4304]), (7313, [4305]), (7314, [4306]), (7315,
  [4307]), (7316, [4308]), (7317, [4309]), (7318, [4310]), (7319, [4311]), (7320, [4312]),
  (7321, [4313]), (7322, [4314]), (7323, [4315]), (7324, [4316]), (7325, [4317]), (7326,
  [4318]), (7327, [4319]), (7328, [4320]), (7329, [4321]), (7330, [4322]), (7331, [4323]),
  (7332, [4324]), (7333, [4325]), (7334, [4326]), (7335, [4327]), (7336, [4328]), (7337,
  [4329]), (7338, [4330]), (7339, [4331]), (7340, [4332]), (7341, [4333]), (7342, [4334]),
  (7343, [4335]), (7344, [4336]), (7345, [4337]), (7346, [4338]), (7347, [4339]), (7348,
  [4340]), (7349, [4341]), (7350, [4342]), (7351, [4343]), (7352, [4344]), (7353, [4345]),
  (7354, [4346]), (7357, [4349]), (7358, [4350]), (7359, [4351]), (7680, [7681])]

def lowerT7 : List (Nat × List Nat) := [(7682, [7683]), (7684, [7685]), (7686, [7687]), (7688,
  [7689]), (7690, [7691]), (7692, [7693]), (7694, [7695]), (7696, [7697]), (7698, [7699]),
  (7700, [7701]), (7702, [7703]), (7704, [7705]), (7706, [7707]), (7708, [7709]), (7710,
  [7711]), (7712, [7713]), (7714, [7715]), (7716, [7717]), (7718, [7719]), (7720, [7721]),
  (7722, [7723]), (7724, [7725]), (7726, [7727]), (7728, [7729]), (7730, [7731]), (7732,
  [7733]), (7734, [7735]), (7736, [7737]), (7738, [7739]), (7740, [7741]), (7742, [7743]),
  (7744, [7745]), (7746, [7747]), (7748, [7749]), (7750, [7751]), (7752, [7753]), (7754,
  [7755]), (7756, [7757]), (7758, [7759]), (7760, [7761]), (7762, [7763]), (7764, [7765]),
  (7766, [7767]), (7768, [7769]), (7770, [7771]), (7772, [7773]), (7774, [7775]), (7776,
  [7777]), (7778, [7779]), (7780, [7781]), (7782, [7783]), (7784, [7785]), (7786, [7787]),
  (7788, [7789]), (7790, [7791]), (7792, [7793]), (7794, [7795]), (7796, [7797]), (7798,
  [7799]), (7800, [7801]), (7802, [7803]), (7804, [7805]), (7806, [7807]), (7808, [7809]),
  (7810, [7811]), (7812, [7813]), (7814, [7815]), (7816, [7817]), (7818, [7819]), (7820,
  [7821]), (7822, [7823]), (7824, [7825]), (7826, [7827]), (7828, [7829]), (7838, [223]),
  (7840, [7841]), (7842, [7843]), (7844, [7845]), (7846, [7847]), (7848, [7849]), (7850,
  [7851]), (7852, [7853]), (7854, [7855]), (7856, [7857]), (7858, [7859]), (7860, [7861]),
  (7862, [7863]), (7864, [7865])]

def lowerT8 : List (Nat × List Nat) := [(7866, [7867]), (7868, [7869]), (7870, [7871]), (7872,
  [7873]), (7874, [7875]), (7876, [7877]), (7878, [7879]), (7880, [7881]), (7882, [7883]),
  (7884, [7885]), (7886, [7887]), (7888, [7889]), (7890, [7891]), (7892, [7893]), (7894,
  [7895]), (7896, [7897]), (7898, [7899]), (7900, [7901]), (7902, [7903]), (7904, [7905]),
  (7906, [7907]), (7908, [7909]), (7910, [7911]), (7912, [7913]), (7914, [7915]), (7916,
  [7917]), (7918, [7919]), (7920, [7921]), (7922, [7923]), (7924, [7925]), (7926, [7927]),
  (7928, [7929]), (7930, [7931]), (7932, [7933]), (7934, [7935]), (7944, [7936]), (7945,
  [7937]), (7946, [7938]), (7947, [7939]), (7948, [7940]), (7949, [7941]), (7950, [7942]),
  (7951, [7943]), (7960, [7952]), (7961, [7953]), (7962, [7954]), (7963, [7955]), (7964,
  [7956]), (7965, [7957]), (7976, [7968]), (7977, [7969]), (7978, [7970]), (7979, [7971]),
  (7980, [7972]), (7981, [7973]), (7982, [7974]), (7983, [7975]), (7992, [7984]), (7993,
  [7985]), (7994, [7986]), (7995, [7987]), (7996, [7988]), (7997, [7989]), (7998, [7990]),
  (7999, [7991]), (8008, [8000]), (8009, [8001]), (8010, [8002]), (8011, [8003]), (8012,
  [8004]), (8013, [8005]), (8025, [8017]), (8027, [8019]), (8029, [8021]), (8031, [8023]),
  (8040, [8032]), (8041, [8033]), (8042, [8034]), (8043, [8035]), (8044, [8036]), (8045,
  [8037]), (8046, [8038]), (8047, [8039]), (8072, [8064]), (8073, [8065]), (8074, [8066]),
  (8075, [8067]), (8076, [8068])]

def lowerT9 : List (Nat × List Nat) := [(8077, [8069]), (8078, [8070]), (8079, [8071]), (8088,
  [8080]), (8089, [8081]), (8090, [8082]), (8091, [8083]), (8092, [8084]), (8093, [8085]),
  (8094, [8086]), (8095, [8087]), (8104, [8096]), (8105, [8097]), (8106, [8098]), (8107,
  [8099]), (8108, [8100]), (8109, [8101]), (8110, [8102]), (8111, [8103]), (8120, [8112]),
  (8121, [8113]), (8122, [8048]), (8123, [8049]), (8124, [8115]), (8136, [8050]), (8137,
  [8051]), (8138, [8052]), (8139, [8053]), (8140, [8131]), (8152, [8144]), (8153, [8145]),
  (8154, [8054]), (8155, [8055]), (8168, [8160]), (8169, [8161]), (8170, [8058]), (8171,
  [8059]), (8172, [8165]), (8184, [8056]), (8185, [8057]), (8186, [8060]), (8187, [8061]),
  (8188, [8179]), (8486, [969]), (8490, [107]), (8491, [229]), (8498, [8526]), (8544, [8560]),
  (8545, [8561]), (8546, [8562]), (8547, [8563]), (8548, [8564]), (8549, [8565]), (8550,
  [8566]), (8551, [8567]), (8552, [8568]), (8553, [8569]), (8554, [8570]), (8555, [8571]),
  (8556, [8572]), (8557, [8573]), (8558, [8574]), (8559, [8575]), (8579, [8580]), (9398,
  [9424]), (9399, [9425]), (9400, [9426]), (9401, [9427]), (9402, [9428]), (9403, [9429]),
  (9404, [9430]), (9405, [9431]), (9406, [9432]), (9407, [9433]), (9408, [9434]), (9409,
  [9435]), (9410, [9436]), (9411, [9437]), (9412, [9438]), (9413, [9439]), (9414, [9440]),
  (9415, [9441]), (9416, [9442]), (9417, [9443]), (9418, [9444]), (9419, [9445]), (9420,
  [9446]), (9421, [9447])]

def lowerT10 : List (Nat × List Nat) := [(9422, [9448]), (9423, [9449]), (11264, [11312]),
  (11265, [11313]), (11266, [11314]), (11267, [11315]), (11268, [11316]), (11269, [11317]),
  (11270, [11318]), (11271, [11319]), (11272, [11320]), (11273, [11321]), (11274, [11322]),
  (11275, [11323]), (11276, [11324]), (11277, [11325]), (11278, [11326]), (11279, [11327]),
  (11280, [11328]), (11281, [11329]), (11282, [11330]), (11283, [11331]), (11284, [11332]),
  (11285, [11333]), (11286, [11334]), (11287, [11335]), (11288, [11336]), (11289, [11337]),
  (11290, [11338]), (11291, [11339]), (11292, [11340]), (11293, [11341]), (11294, [11342]),
  (11295, [11343]), (11296, [11344]), (11297, [11345]), (11298, [11346]), (11299, [11347]),
  (11300, [11348]), (11301, [11349]), (11302, [11350]), (11303, [11351]), (11304, [11352]),
  (11305, [11353]), (11306, [11354]), (11307, [11355]), (11308, [11356]), (11309, [11357]),
  (11310, [11358]), (11311, [11359]), (11360, [11361]), (11362, [619]), (11363, [7549]),
  (11364, [637]), (11367, [11368]), (11369, [11370]), (11371, [11372]), (11373, [593]), (11374,
  [625]), (11375, [592]), (11376, [594]), (11378, [11379]), (11381, [11382]), (11390, [575]),
  (11391, [576]), (11392, [11393]), (11394, [11395]), (11396, [11397]), (11398, [11399]),
  (11400, [11401]), (11402, [11403]), (11404, [11405]), (11406, [11407]), (11408, [11409]),
  (11410, [11411]), (11412, [11413]), (11414, [11415]), (11416, [11417]), (11418, [11419]),
  (11420, [11421]), (11422, [11423]), (11424, [11425]), (11426, [11427]), (11428, [11429]),
  (11430, [11431]), (11432, [11433]), (11434, [11435]), (11436, [11437])]

def lowerT11 : List (Nat × List Nat) := [(11438, [11439]), (11440, [11441]), (11442, [11443]),
  (11444, [11445]), (11446, [11447]), (11448, [11449]), (11450, [11451]), (11452, [11453]),
  (11454, [11455]), (11456, [11457]), (11458, [11459]), (11460, [11461]), (11462, [11463]),
  (11464, [11465]), (11466, [11467]), (11468, [11469]), (11470, [11471]), (11472, [11473]),
  (11474, [11475]), (11476, [11477]), (11478, [11479]), (11480, [11481]), (11482, [11483]),
  (11484, [11485]), (11486, [11487]), (11488, [11489]), (11490, [11491]), (11499, [11500]),
  (11501, [11502]), (11506, [11507]), (42560, [42561]), (42562, [42563]), (42564, [42565]),
  (42566, [42567]), (42568, [42569]), (42570, [42571]), (42572, [42573]), (42574, [42575]),
  (42576, [42577]), (42578, [42579]), (42580, [42581]), (42582, [42583]), (42584, [42585]),
  (42586, [42587]), (42588, [42589]), (42590, [42591]), (42592, [42593]), (42594, [42595]),
  (42596, [42597]), (42598, [42599]), (42600, [42601]), (42602, [42603]), (42604, [42605]),
  (42624, [42625]), (42626, [42627]), (42628, [42629]), (42630, [42631]), (42632, [42633]),
  (42634, [42635]), (42636, [42637]), (42638, [42639]), (42640, [42641]), (42642, [42643]),
  (42644, [42645]), (42646, [42647]), (42648, [42649]), (42650, [42651]), (42786, [42787]),
  (42788, [42789]), (42790, [42791]), (42792, [42793]), (42794, [42795]), (42796, [42797]),
  (42798, [42799]), (42802, [42803]), (42804, [42805]), (42806, [42807]), (42808, [42809]),
  (42810, [42811]), (42812, [42813]), (42814, [42815]), (42816, [42817]), (42818, [42819]),
  (42820, [42821]), (42822, [42823]), (42824, [42825]), (42826, [42827]), (42828, [42829])]

def lowerT12 : List (Nat × List Nat) := [(42830, [42831]), (42832, [42833]), (42834, [42835]),
  (42836, [42837]), (42838, [42839]), (42840, [42841]), (42842, [42843]), (42844, [42845]),
  (42846, [42847]), (42848, [42849]), (42850, [42851]), (42852, [42853]), (42854, [42855]),
  (42856, [42857]), (42858, [42859]), (42860, [42861]), (42862, [42863]), (42873, [42874]),
  (42875, [42876]), (42877, [7545]), (42878, [42879]), (42880, [42881]), (42882, [42883]),
  (42884, [42885]), (42886, [42887]), (42891, [42892]), (42893, [613]), (42896, [42897]),
  (42898, [42899]), (42902, [42903]), (42904, [42905]), (42906, [42907]), (42908, [42909]),
  (42910, [42911]), (42912, [42913]), (42914, [42915]), (42916, [42917]), (42918, [42919]),
  (42920, [42921]), (42922, [614]), (42923, [604]), (42924, [609]), (42925, [620]), (42926,
  [618]), (42928, [670]), (42929, [647]), (42930, [669]), (42931, [43859]), (42932, [42933]),
  (42934, [42935]), (42936, [42937]), (42938, [42939]), (42940, [42941]), (42942, [42943]),
  (42944, [42945]), (42946, [42947]), (42948, [42900]), (42949, [642]), (42950, [7566]),
  (42951, [42952]), (42953, [42954]), (42960, [42961]), (42966, [42967]), (42968, [42969]),
  (42997, [42998]), (65313, [65345]), (65314, [65346]), (65315, [65347]), (65316, [65348]),
  (65317, [65349]), (65318, [65350]), (65319, [65351]), (65320, [65352]), (65321, [65353]),
  (65322, [65354]), (65323, [65355]), (65324, [65356]), (65325, [65357]), (65326, [65358]),
  (65327, [65359]), (65328, [65360]), (65329, [65361]), (65330, [65362]), (65331, [65363]),
  (65332, [65364]), (65333, [65365]), (65334, [65366]), (65335, [65367])]

def lowerT13 : List (Nat × List Nat) := [(65336, [65368]), (65337, [65369]), (65338, [65370]),
  (66560, [66600]), (66561, [66601]), (66562, [66602]), (66563, [66603]), (66564, [66604]),
  (66565, [66605]), (66566, [66606]), (66567, [66607]), (66568, [66608]), (66569, [66609]),
  (66570, [66610]), (66571, [66611]), (66572, [66612]), (66573, [66613]), (66574, [66614]),
  (66575, [66615]), (66576, [66616]), (66577, [66617]), (66578, [66618]), (66579, [66619]),
  (66580, [66620]), (66581, [66621]), (66582, [66622]), (66583, [66623]), (66584, [66624]),
  (66585, [66625]), (66586, [66626]), (66587, [66627]), (66588, [66628]), (66589, [66629]),
  (66590, [66630]), (66591, [66631]), (66592, [66632]), (66593, [66633]), (66594, [66634]),
  (66595, [66635]), (66596, [66636]), (66597, [66637]), (66598, [66638]), (66599, [66639]),
  (66736, [66776]), (66737, [66777]), (66738, [66778]), (66739, [66779]), (66740, [66780]),
  (66741, [66781]), (66742, [66782]), (66743, [66783]), (66744, [66784]), (66745, [66785]),
  (66746, [66786]), (66747, [66787]), (66748, [66788]), (66749, [66789]), (66750, [66790]),
  (66751, [66791]), (66752, [66792]), (66753, [66793]), (66754, [66794]), (66755, [66795]),
  (66756, [66796]), (66757, [66797]), (66758, [66798]), (66759, [66799]), (66760, [66800]),
  (66761, [66801]), (66762, [66802]), (66763, [66803]), (66764, [66804]), (66765, [66805]),
  (66766, [66806]), (66767, [66807]), (66768, [66808]), (66769, [66809]), (66770, [66810]),
  (66771, [66811]), (66928, [66967]), (66929, [66968]), (66930, [66969]), (66931, [66970]),
  (66932, [66971]), (66933, [66972]), (66934, [66973]), (66935, [66974]), (66936, [66975])]

def lowerT14 : List (Nat × List Nat) := [(66937, [66976]), (66938, [66977]), (66940, [66979]),
  (66941, [66980]), (66942, [66981]), (66943, [66982]), (66944, [66983]), (66945, [66984]),
  (66946, [66985]), (66947, [66986]), (66948, [66987]), (66949, [66988]), (66950, [66989]),
  (66951, [66990]), (66952, [66991]), (66953, [66992]), (66954, [66993]), (66956, [66995]),
  (66957, [66996]), (66958, [66997]), (66959, [66998]), (66960, [66999]), (66961, [67000]),
  (66962, [67001]), (66964, [67003]), (66965, [67004]), (68736, [68800]), (68737, [68801]),
  (68738, [68802]), (68739, [68803]), (68740, [68804]), (68741, [68805]), (68742, [68806]),
  (68743, [68807]), (68744, [68808]), (68745, [68809]), (68746, [68810]), (68747, [68811]),
  (68748, [68812]), (68749, [68813]), (68750, [68814]), (68751, [68815]), (68752, [68816]),
  (68753, [68817]), (68754, [68818]), (68755, [68819]), (68756, [68820]), (68757, [68821]),
  (68758, [68822]), (68759, [68823]), (68760, [68824]), (68761, [68825]), (68762, [68826]),
  (68763, [68827]), (68764, [68828]), (68765, [68829]), (68766, [68830]), (68767, [68831]),
  (68768, [68832]), (68769, [68833]), (68770, [68834]), (68771, [68835]), (68772, [68836]),
  (68773, [68837]), (68774, [68838]), (68775, [68839]), (68776, [68840]), (68777, [68841]),
  (68778, [68842]), (68779, [68843]), (68780, [68844]), (68781, [68845]), (68782, [68846]),
  (68783, [68847]), (68784, [68848]), (68785, [68849]), (68786, [68850]), (71840, [71872]),
  (71841, [71873]), (71842, [71874]), (71843, [71875]), (71844, [71876]), (71845, [71877]),
  (71846, [71878]), (71847, [71879]), (71848, [71880]), (71849, [71881]), (71850, [71882])]

def lowerT15 : List (Nat × List Nat) := [(71851, [71883]), (71852, [71884]), (71853, [71885]),
  (71854, [71886]), (71855, [71887]), (71856, [71888]), (71857, [71889]), (71858, [71890]),
  (71859, [71891]), (71860, [71892]), (71861, [71893]), (71862, [71894]), (71863, [71895]),
  (71864, [71896]), (71865, [71897]), (71866, [71898]), (71867, [71899]), (71868, [71900]),
  (71869, [71901]), (71870, [71902]), (71871, [71903]), (93760, [93792]), (93761, [93793]),
  (93762, [93794]), (93763, [93795]), (93764, [93796]), (93765, [93797]), (93766, [93798]),
  (93767, [93799]), (93768, [93800]), (93769, [93801]), (93770, [93802]), (93771, [93803]),
  (93772, [93804]), (93773, [93805]), (93774, [93806]), (93775, [93807]), (93776, [93808]),
  (93777, [93809]), (93778, [93810]), (93779, [93811]), (93780, [93812]), (93781, [93813]),
  (93782, [93814]), (93783, [93815]), (93784, [93816]), (93785, [93817]), (93786, [93818]),
  (93787, [93819]), (93788, [93820]), (93789, [93821]), (93790, [93822]), (93791, [93823]),
  (125184, [125218]), (125185, [125219]), (125186, [125220]), (125187, [125221]), (125188,
  [125222]), (125189, [125223]), (125190, [125224]), (125191, [125225]), (125192, [125226]),
  (125193, [125227]), (125194, [125228]), (125195, [125229]), (125196, [125230]), (125197,
  [125231]), (125198, [125232]), (125199, [125233]), (125200, [125234]), (125201, [125235]),
  (125202, [125236]), (125203, [125237]), (125204, [125238]), (125205, [125239]), (125206,
  [125240]), (125207, [125241]), (125208, [125242]), (125209, [125243]), (125210, [125244]),
  (125211, [125245]), (125212, [125246]), (125213, [125247]), (125214, [125248]), (125215,
  [125249]), (125216, [125250]), (125217, [125251])]

/-- Bucketed lookup of the table above. -/
def lowerLookup (c : Nat) : Option (List Nat) :=
  if c < 7866 then
    if c < 1221 then
      if c < 542 then
        if c < 374 then
          List.lookup c lowerT0
        else
          List.lookup c lowerT1
      else
        if c < 1031 then
          List.lookup c lowerT2
        else
          List.lookup c lowerT3
    else
      if c < 5069 then
        if c < 1364 then
          List.lookup c lowerT4
        else
          List.lookup c lowerT5
      else
        if c < 7682 then
          List.lookup c lowerT6
        else
          List.lookup c lowerT7
  else
    if c < 42830 then
      if c < 9422 then
        if c < 8077 then
          List.lookup c lowerT8
        else
          List.lookup c lowerT9
      else
        if c < 11438 then
          List.lookup c lowerT10
        else
          List.lookup c lowerT11
    else
      if c < 66937 then
        if c < 65336 then
          List.lookup c lowerT12
        else
          List.lookup c lowerT13
      else
        if c < 71851 then
          List.lookup c lowerT14
        else
          List.lookup c lowerT15

/-- `str.lower` on one code point: the ASCII range directly, every other
code point through the table (code points without an entry are fixed). -/
def pyLowerChar (c : Nat) : List Nat :=
  if 65 ≤ c ∧ c ≤ 90 then [c + 32]
  else if c < 128 then [c]
  else
    match lowerLookup c with
    | some l => l
    | none => [c]

/-- Model of `str.lower`. -/
def pyLower (s : PyStr) : PyStr := (s.map pyLowerChar).flatten

/-- Unicode whitespace, as matched by the regex class `\s` (for `str`
patterns) and stripped by `str.strip()`. -/
def isSpaceCp (c : Nat) : Bool :=
  decide ((9 ≤ c ∧ c ≤ 13) ∨ (28 ≤ c ∧ c ≤ 31) ∨ c = 32 ∨ c = 133 ∨ c = 160 ∨
    c = 5760 ∨ (8192 ≤ c ∧ c ≤ 8202) ∨ c = 8232 ∨ c = 8233 ∨ c = 8239 ∨
    c = 8287 ∨ c = 12288)

/-- Model of `str.strip()`: drop leading and trailing whitespace. -/
def pyStrip (s : PyStr) : PyStr :=
  ((s.dropWhile isSpaceCp).reverse.dropWhile isSpaceCp).reverse

/-!
### difflib.SequenceMatcher, as called by `calculate_similarity`

`SequenceMatcher(None, a, b)` with `autojunk=True`: if `len(b) >= 200`,
every element occurring more than `len(b) // 100 + 1` times in `b` is
"popular" and is dropped from the index `b2j`.  The junk set `bjunk`
itself stays empty (`isjunk=None` adds nothing to it), so the junk test
`isbjunk` of `find_longest_match` is constantly false: the non-junk
extension loops extend on plain equality and the junk extension loops
never iterate.
-/

/-- Is code point `c` junk (popular) for second sequence `b`?  Mirrors the
`autojunk` computation of `SequenceMatcher.__chain_b`. -/
def bJunk (b : PyStr) (c : Nat) : Bool :=
  decide (200 ≤ b.length) && decide (b.length / 100 + 1 < b.count c)

/-- The index list `b2j[c]`: positions of `c` in `b`, in increasing order,
empty when `c` is junk.  Mirrors `b2j` after `__chain_b`. -/
def b2jList (b : PyStr) (c : Nat) : List Nat :=
  if bJunk b c then []
  else (List.range b.length).filter (fun j => decide (b.getD j 0 = c))

/-- The running best match of `find_longest_match`. -/
structure FlmSt where
  besti : Nat
  bestj : Nat
  bestsize : Nat
deriving DecidableEq, Repr

/-- Inner loop of `find_longest_match` over `b2j.get(a[i], [])` for one row
`i`.  `j2len` is the previous row's dictionary (0 for absent keys), `nj` the
row being built.  Python skips `j < blo` (`continue`) and stops at
`j >= bhi` (`break`); since the index list is increasing, the `break` is
equivalent to skipping every out-of-range `j`, which is what the `else`
branch does. -/
def flmInner (j2len : Nat → Nat) (i blo bhi : Nat) :
    List Nat → (Nat → Nat) → FlmSt → ((Nat → Nat) × FlmSt)
  | [], nj, st => (nj, st)
  | j :: js, nj, st =>
    if blo ≤ j ∧ j < bhi then
      -- `k = newj2len[j] = j2len.get(j-1, 0) + 1`; the key `-1` is absent.
      let k := (if j = 0 then 0 else j2len (j - 1)) + 1
      let nj' := fun x => if x = j then k else nj x
      let st' := if st.bestsize < k then ⟨i + 1 - k, j + 1 - k, k⟩ else st
      flmInner j2len i blo bhi js nj' st'
    else
      flmInner j2len i blo bhi js nj st

/-- Outer loop of `find_longest_match` over rows `i` in `[alo, ahi)`. -/
def flmRows (a b : PyStr) (blo bhi : Nat) :
    List Nat → (Nat → Nat) → FlmSt → FlmSt
  | [], _, st => st
  | i :: is, j2len, st =>
    let p := flmInner j2len i blo bhi (b2jList b (a.getD i 0)) (fun _ => 0) st
    flmRows a b blo bhi is p.1 p.2

/-- The backward extension `while` loop of `find_longest_match`, as a
fuel recursion.  The junk set being empty, the loop's
`not isbjunk(b[bestj-1])` conjunct always holds and is omitted, and the
backward junk loop (guarded by `isbjunk(b[bestj-1])`) never iterates and
adds nothing.  Each iteration requires `alo < besti` and decrements
`besti`, so `besti` itself bounds the iteration count: with fuel `besti`
the recursion computes exactly what the `while` loop does. -/
def extBack (a b : PyStr) (alo blo : Nat) :
    Nat → Nat → Nat → Nat → (Nat × Nat × Nat)
  | 0, besti, bestj, k => (besti, bestj, k)
  | fuel + 1, besti, bestj, k =>
    if alo < besti ∧ blo < bestj ∧
        a.getD (besti - 1) 0 = b.getD (bestj - 1) 0 then
      extBack a b alo blo fuel (besti - 1) (bestj - 1) (k + 1)
    else (besti, bestj, k)

/-- The forward extension `while` loop of `find_longest_match`, as a fuel
recursion; as with `extBack`, the empty junk set makes the
`not isbjunk(...)` conjunct vacuous and the forward junk loop a no-op.
Each iteration requires `besti + k < ahi` and increments `k`, so `ahi`
bounds the iteration count: with fuel `ahi` the recursion computes
exactly what the `while` loop does. -/
def extFwd (a b : PyStr) (ahi bhi : Nat) (besti bestj : Nat) :
    Nat → Nat → Nat
  | 0, k => k
  | fuel + 1, k =>
    if besti + k < ahi ∧ bestj + k < bhi ∧
        a.getD (besti + k) 0 = b.getD (bestj + k) 0 then
      extFwd a b ahi bhi besti bestj fuel (k + 1)
    else k

/-- `SequenceMatcher.find_longest_match(alo, ahi, blo, bhi)`: the dynamic
programming loop, then the backward and forward extension loops (the two
junk extension loops never iterate, the junk set being empty), returning
`(besti, bestj, bestsize)`. -/
def findLongestMatch (a b : PyStr) (alo ahi blo bhi : Nat) : Nat × Nat × Nat :=
  let st := flmRows a b blo bhi (List.range' alo (ahi - alo)) (fun _ => 0) ⟨alo, blo, 0⟩
  let r1 := extBack a b alo blo st.besti st.besti st.bestj st.bestsize
  let k2 := extFwd a b ahi bhi r1.1 r1.2.1 ahi r1.2.2
  (r1.1, r1.2.1, k2)

/-- The total size of the matching blocks found by the recursion of
`get_matching_blocks` on the range `(alo, ahi, blo, bhi)` (the queue order
does not affect the total).  Fuel recursion: every recursive call strictly
decreases `ahi - alo` (see `findLongestMatch_bounds`), so fuel
`ahi - alo + 1` suffices. -/
def matchesRecF (a b : PyStr) : Nat → Nat → Nat → Nat → Nat → Nat
  | 0, _, _, _, _ => 0
  | fuel + 1, alo, ahi, blo, bhi =>
    let m := findLongestMatch a b alo ahi blo bhi
    if m.2.2 = 0 then 0
    else
      (if alo < m.1 ∧ blo < m.2.1 then matchesRecF a b fuel alo m.1 blo m.2.1 else 0)
      + m.2.2 +
      (if m.1 + m.2.2 < ahi ∧ m.2.1 + m.2.2 < bhi then
        matchesRecF a b fuel (m.1 + m.2.2) ahi (m.2.1 + m.2.2) bhi else 0)

/-- `matches = sum(triple[-1] for triple in self.get_matching_blocks())`. -/
def matchesTotal (a b : PyStr) : Nat :=
  matchesRecF a b (a.length + 1) 0 a.length 0 b.length

/-- `difflib._calculate_ratio(matches, length)`: `2.0 * matches / length`
when `length` is nonzero, else `1.0`; floats embedded as exact rationals. -/
def ratioQ (m t : Nat) : ℚ :=
  if t = 0 then 1 else mkRat (2 * m) t

/-- `SequenceMatcher(None, a, b).ratio()`. -/
def smRatioQ (a b : PyStr) : ℚ :=
  ratioQ (matchesTotal a b) (a.length + b.length)

/-- `calculate_similarity(a, b)` (`playback_tools.py`, lines 10-21):
`SequenceMatcher(None, a.lower(), b.lower()).ratio()`. -/
def calculate_similarity (a b : PyStr) : ℚ :=
  smRatioQ (pyLower a) (pyLower b)

/-!
### parse_query (`playback_tools.py`, lines 23-53)

`parse_query` tries, with `re.match` and `re.IGNORECASE`, the patterns

* pattern A: `^(.+)\s+(?:by|from|of)\s+(.+)$`
* pattern B: `^(.+)\s*-\s*(.+)$`

in order; the first match yields `song = group(1).strip()`,
`artist = group(2).strip()`; otherwise `song = query.strip()`,
`artist = None`.  `search_type` is always the literal `'track'`.

The backtracking regex semantics is embedded as follows.  Group 1 (`.+`)
is greedy: candidate lengths are tried from longest to shortest, and a
candidate is valid only if it contains no newline (`.` never matches
`\n`).  After group 1, a `\s+`/`\s*` whose continuation begins with a
non-whitespace token (the keyword alternation, or the literal `-`) only
ever matches the maximal whitespace run: retrying a shorter run would
leave the continuation looking at a whitespace code point, which cannot
begin `by`/`from`/`of` or `-`.  The second `\s+`/`\s*` does backtrack
(shorter runs are retried, longest first), because its continuation
`(.+)$` can begin with whitespace.  `(.+)$` itself takes the maximal
newline-free run and never backtracks: `$` only matches at the end of the
string or before a final newline, and every shorter candidate end lies on
a non-newline code point.
-/

/-- Does the range hold no newline (`.` never matches `\n` = 10)? -/
def isNlFree (l : PyStr) : Bool := l.all (fun c => decide (c ≠ 10))

/-- Length of the maximal `\s` run of `q` starting at position `p`. -/
def wsRun (q : PyStr) (p : Nat) : Nat :=
  ((q.drop p).takeWhile isSpaceCp).length

/-- Length of the maximal `.`-matchable (non-newline) run starting at `p`. -/
def dotRun (q : PyStr) (p : Nat) : Nat :=
  ((q.drop p).takeWhile (fun c => decide (c ≠ 10))).length

/-- Does `$` match at position `e` of `q` (end of string, or just before a
final newline)? -/
def dollarOk (q : PyStr) (e : Nat) : Bool :=
  decide (e = q.length) || (decide (e + 1 = q.length) && decide (q.getD e 0 = 10))

/-- Match `(.+)$` at position `p`: the maximal non-newline run, if it is
nonempty and `$` matches at its end. -/
def group2At (q : PyStr) (p : Nat) : Option PyStr :=
  let m := dotRun q p
  if 1 ≤ m ∧ dollarOk q (p + m) = true then some ((q.drop p).take m) else none

/-- Case-insensitive literal match of `kw` (given lower-case) at `p`,
mirroring `re.IGNORECASE` on ASCII letters. -/
def kwAt (q : PyStr) (p : Nat) (kw : List Nat) : Bool :=
  decide (p + kw.length ≤ q.length) &&
  (List.range kw.length).all (fun t => decide (toLowerCp (q.getD (p + t) 0) = kw.getD t 0))

/-- The alternation `(?:by|from|of)` at position `p`: alternatives are tried
in pattern order; their first letters (`b`, `f`, `o`) are distinct, so at
most one can match.  Returns the matched length. -/
def kwLen (q : PyStr) (p : Nat) : Option Nat :=
  if kwAt q p [98, 121] then some 2
  else if kwAt q p [102, 114, 111, 109] then some 4
  else if kwAt q p [111, 102] then some 2
  else none

/-- Backtracking over the second `\s+` of pattern A: try run lengths
`r2, r2 - 1, ..., 1` (longest first) and match `(.+)$` after each. -/
def tryTailA (q : PyStr) (p0 : Nat) : Nat → Option PyStr
  | 0 => none
  | r2 + 1 =>
    match group2At q (p0 + (r2 + 1)) with
    | some g2 => some g2
    | none => tryTailA q p0 r2

/-- Backtracking over the second `\s*` of pattern B: try run lengths
`r2, r2 - 1, ..., 0`. -/
def tryTailB (q : PyStr) (p0 : Nat) : Nat → Option PyStr
  | 0 => group2At q p0
  | r2 + 1 =>
    match group2At q (p0 + (r2 + 1)) with
    | some g2 => some g2
    | none => tryTailB q p0 r2

/-- Pattern A with group 1 fixed to `q.take i`. -/
def matchAAt (q : PyStr) (i : Nat) : Option (PyStr × PyStr) :=
  if isNlFree (q.take i) then
    let r := wsRun q i
    if 1 ≤ r then
      match kwLen q (i + r) with
      | some kl =>
        let p0 := i + r + kl
        match tryTailA q p0 (wsRun q p0) with
        | some g2 => some (q.take i, g2)
        | none => none
      | none => none
    else none
  else none

/-- Greedy group 1 for pattern A: lengths `i, i - 1, ..., 1`. -/
def matchAGo (q : PyStr) : Nat → Option (PyStr × PyStr)
  | 0 => none
  | i + 1 =>
    match matchAAt q (i + 1) with
    | some r => some r
    | none => matchAGo q i

/-- `re.match` of pattern A against `q` (group 1 ranges over the proper
nonempty prefixes, longest first). -/
def matchA (q : PyStr) : Option (PyStr × PyStr) :=
  match q.length with
  | 0 => none
  | n + 1 => matchAGo q n

/-- Pattern B with group 1 fixed to `q.take i`. -/
def matchBAt (q : PyStr) (i : Nat) : Option (PyStr × PyStr) :=
  if isNlFree (q.take i) then
    let r := wsRun q i
    if i + r < q.length ∧ q.getD (i + r) 0 = 45 then
      let p0 := i + r + 1
      match tryTailB q p0 (wsRun q p0) with
      | some g2 => some (q.take i, g2)
      | none => none
    else none
  else none

/-- Greedy group 1 for pattern B. -/
def matchBGo (q : PyStr) : Nat → Option (PyStr × PyStr)
  | 0 => none
  | i + 1 =>
    match matchBAt q (i + 1) with
    | some r => some r
    | none => matchBGo q i

/-- `re.match` of pattern B against `q`. -/
def matchB (q : PyStr) : Option (PyStr × PyStr) :=
  match q.length with
  | 0 => none
  | n + 1 => matchBGo q n

/-- The literal string `'track'`. -/
def strTrack : PyStr := [116, 114, 97, 99, 107]

/-- The dictionary returned by `parse_query`. -/
structure ParsedQuery where
  song : PyStr
  artist : Option PyStr
  search_type : PyStr
deriving DecidableEq, Repr

/-- `parse_query(query)`: try pattern A, then pattern B; strip the two
groups; on no match, the stripped query with no artist. -/
def parse_query (query : PyStr) : ParsedQuery :=
  match matchA query with
  | some g => ⟨pyStrip g.1, some (pyStrip g.2), strTrack⟩
  | none =>
    match matchB query with
    | some g => ⟨pyStrip g.1, some (pyStrip g.2), strTrack⟩
    | none => ⟨pyStrip query, none, strTrack⟩

/-!
### search_and_play (`playback_tools.py`, lines 55-138)

Data from the Spotify API: a track (`results['tracks']['items'][k]`) is
used through its `name`, `artists[0]['name']` and `uri` fields; a device
through `id`, `name` and `is_active`.  The API guarantees at least one
artist per track; `track['artists'][0]` on an artist-less track would
raise, and the embedding reads the primary artist with `List.headI`
(defaulting to the empty string), so claims about candidates are about
well-formed candidates.
-/

/-- A search-result track candidate. -/
structure Track where
  name : PyStr
  artists : List PyStr
  uri : PyStr
deriving DecidableEq, Repr

/-- A playback device. -/
structure Device where
  id : PyStr
  name : PyStr
  is_active : Bool
deriving DecidableEq, Repr

/-- The artist filter (lines 84-88): guarded by the truthiness test
`if parsed_query['artist']:` (skipped for `None` and for the empty
string), keep the candidates whose primary artist name has similarity
above `0.6 = 3/5`. -/
def filterByArtist (parsed : ParsedQuery) (tracks : List Track) : List Track :=
  match parsed.artist with
  | none => tracks
  | some ar =>
    if ar = [] then tracks
    else tracks.filter (fun track =>
      decide (mkRat 3 5 < calculate_similarity ar track.artists.headI))

/-- The selection loop (lines 90-98): running best candidate and running
`highest_similarity`, updated on strict improvement. -/
def selectGo (song : PyStr) : Option Track → ℚ → List Track → Option Track
  | best, _, [] => best
  | best, highest, track :: tracks =>
    let s := calculate_similarity song track.name
    if highest < s then selectGo song (some track) s tracks
    else selectGo song best highest tracks

/-- The candidate-selection step (spec: `rank`): artist filter, then the
selection loop started from `most_relevant_track = None`,
`highest_similarity = 0`. -/
def rank (parsed : ParsedQuery) (tracks : List Track) : Option Track :=
  selectGo parsed.song none 0 (filterByArtist parsed tracks)

/-- The device choice of lines 109-122: first device with
`is_active`, else the first device; `none` when the list is empty. -/
def dispatchDevice (devs : List Device) : Option Device :=
  match devs with
  | [] => none
  | d :: _ => some ((devs.find? (fun d => d.is_active)).getD d)

/-- One externally observable call, in program order.  A `play` event
records the device id, the track uri and whether the call returned
(`ok = false` when it raised). -/
inductive Ev where
  | search (q ty : PyStr)
  | devices
  | play (d uri : PyStr) (ok : Bool)
  | launch
deriving DecidableEq, Repr

/-- Result of one attempt of the search-and-play body, before the
no-device recovery logic: a normal return, a raised `TransportError`
(opaque payload), or "no devices". -/
inductive AttemptRes where
  | ret (b : Bool)
  | raised (e : Nat)
  | noDevices
deriving DecidableEq, Repr

/-- The external collaborators, indexed by the `retrying` flag of the
attempt performing the call (the retried attempt re-runs every call).
`Except.error e` means the call raises a `TransportError`.  `launchOk` is
whether `subprocess.run(["open", "-a", "Spotify"])` returns without
raising. -/
structure Env where
  searchRes : Bool → Except Nat (List Track)
  devicesRes : Bool → Except Nat (List Device)
  playRes : Bool → PyStr → PyStr → Except Nat Unit
  launchOk : Bool

/-- Lines 71-73: `if search_type: parsed_query['search_type'] = search_type`.
Python truthiness: `None` and the empty string do not override. -/
def applyOverride (searchType : Option PyStr) (p : ParsedQuery) : ParsedQuery :=
  match searchType with
  | some t => if t = [] then p else { p with search_type := t }
  | none => p

/-- One attempt of `search_and_play` (lines 68-122): parse, optional
`search_type` override, search, artist filter + selection, then device
dispatch.  Returns the trace of issued calls and the attempt outcome. -/
def sapAttempt (env : Env) (query : PyStr) (searchType : Option PyStr)
    (retrying : Bool) : List Ev × AttemptRes :=
  let parsed := applyOverride searchType (parse_query query)
  -- `sp.search(q=parsed_query['song'], type='track', limit=20)`:
  -- the type sent is the literal `'track'`.
  match env.searchRes retrying with
  | .error e => ([.search parsed.song strTrack], .raised e)
  | .ok items =>
    match rank parsed items with
    | none => ([.search parsed.song strTrack], .ret false)
    | some best =>
      match env.devicesRes retrying with
      | .error e => ([.search parsed.song strTrack, .devices], .raised e)
      | .ok devs =>
        match dispatchDevice devs with
        | none => ([.search parsed.song strTrack, .devices], .noDevices)
        | some target =>
          match env.playRes retrying target.id best.uri with
          | .error e =>
            ([.search parsed.song strTrack, .devices,
              .play target.id best.uri false], .raised e)
          | .ok _ =>
            ([.search parsed.song strTrack, .devices,
              .play target.id best.uri true], .ret true)

/-- `search_and_play(query, search_type, retrying=False)` (lines 55-138).
The recursion is bounded: the only recursive call passes `retrying=True`
and the `retrying=True` attempt never recurses, so the recursion is
unrolled into the two possible attempts.  The recursive call
`search_and_play(query, retrying=True)` sits inside the
`try ... except Exception` block of lines 128-135, so an error raised
anywhere in the retried attempt is caught and turned into `return False`;
the retried call passes no `search_type`. -/
def searchAndPlay (env : Env) (query : PyStr) (searchType : Option PyStr) :
    List Ev × Except Nat Bool :=
  match sapAttempt env query searchType false with
  | (ev, .ret b) => (ev, .ok b)
  | (ev, .raised e) => (ev, .error e)
  | (ev, .noDevices) =>
    if env.launchOk then
      match sapAttempt env query none true with
      | (ev2, .ret b) => (ev ++ [.launch] ++ ev2, .ok b)
      | (ev2, .raised _) => (ev ++ [.launch] ++ ev2, .ok false)
      | (ev2, .noDevices) => (ev ++ [.launch] ++ ev2, .ok false)
    else (ev ++ [.launch], .ok false)

/-- Is the event a `search` event? -/
def isSearchEv (e : Ev) : Bool :=
  match e with | .search _ _ => true | _ => false

/-- Count the `search` events of a trace. -/
def countSearch (evs : List Ev) : Nat :=
  evs.countP isSearchEv

/-- Count the `devices` events of a trace. -/
def countDevices (evs : List Ev) : Nat :=
  evs.countP (fun e => match e with | .devices => true | _ => false)

/-- Count the `play` events of a trace (issued play commands, raised or
not). -/
def countPlay (evs : List Ev) : Nat :=
  evs.countP (fun e => match e with | .play _ _ _ => true | _ => false)

/-- Count the play events that returned without raising. -/
def countPlayOk (evs : List Ev) : Nat :=
  evs.countP (fun e => match e with | .play _ _ ok => ok | _ => false)

/-- Code points of a string literal, for readable concrete inputs. -/
def strL (s : String) : PyStr := s.data.map Char.toNat

/-!
### Concrete scenario inputs

Small environments used by the scenario and counterexample theorems below.
-/

/-- An inactive device with id `"d1"`. -/
def d1Dev : Device := ⟨strL "d1", strL "Device 1", false⟩

/-- An active device with id `"d2"`. -/
def d2Dev : Device := ⟨strL "d2", strL "Device 2", true⟩

/-- A track named `"abc"` (so the query `"abc"` matches it with similarity
1). -/
def trkAbc : Track := ⟨strL "abc", [strL "w"], strL "uri1"⟩

/-- Scenario: a matching track, and devices `[d1 (inactive), d2 (active)]`. -/
def env4 : Env where
  searchRes := fun _ => .ok [trkAbc]
  devicesRes := fun _ => .ok [d1Dev, d2Dev]
  playRes := fun _ _ _ => .ok ()
  launchOk := true

/-- Scenario: a matching track but no devices on either attempt; the app
launch succeeds. -/
def env5 : Env where
  searchRes := fun _ => .ok [trkAbc]
  devicesRes := fun _ => .ok []
  playRes := fun _ _ _ => .ok ()
  launchOk := true

/-- Scenario: no devices on the first attempt; the search of the retried
attempt raises a `TransportError` (payload 7). -/
def env6 : Env where
  searchRes := fun r => if r then .error 7 else .ok [trkAbc]
  devicesRes := fun _ => .ok []
  playRes := fun _ _ _ => .ok ()
  launchOk := true

/-- Scenario: no devices on the first attempt, an active device on the
retried attempt, and a play call that raises a `TransportError`
(payload 3). -/
def env9 : Env where
  searchRes := fun _ => .ok [trkAbc]
  devicesRes := fun r => if r then .ok [d2Dev] else .ok []
  playRes := fun _ _ _ => .error 3
  launchOk := true

/-- Cell `(i, j)` is processed by the loop of `find_longest_match` on
`a`, `a` with both ranges `[lo, hi)`: row in range, column in range and in
`b2j[a[i]]` (equal, non-junk code points). -/
def allowedCell (a : PyStr) (lo hi i j : Nat) : Prop :=
  lo ≤ i ∧ i < hi ∧ lo ≤ j ∧ j < hi ∧ j < a.length ∧
  a.getD j 0 = a.getD i 0 ∧ bJunk a (a.getD i 0) = false

instance (a : PyStr) (lo hi i j : Nat) : Decidable (allowedCell a lo hi i j) := by
  unfold allowedCell; infer_instance

/-- The dynamic-programming table: the length `k` the loop computes at
cell `(i, j)` (`j2len.get(j-1, 0) + 1` chains along the diagonal). -/
def kcell (a : PyStr) (lo hi : Nat) : Nat → Nat → Nat
  | 0, j => if allowedCell a lo hi 0 j then 1 else 0
  | i + 1, 0 => if allowedCell a lo hi (i + 1) 0 then 1 else 0
  | i + 1, j + 1 =>
    if allowedCell a lo hi (i + 1) (j + 1) then
      (if lo < i + 1 then kcell a lo hi i j else 0) + 1
    else 0

/-- Invariant carried through the inner loop on equal sequences: the best
block is diagonal, a zero best is still the initial `(lo, lo, 0)`, the
best size dominates every cell of earlier rows and of this row before
column `m`, and the row being built agrees with the table below `m`. -/
def InnerInv (a : PyStr) (lo hi i m : Nat) (nj : Nat → Nat) (st : FlmSt) : Prop :=
  st.besti = st.bestj ∧
  (st.bestsize = 0 → st.besti = lo ∧ st.bestj = lo) ∧
  (∀ r c, allowedCell a lo hi r c → r < i → kcell a lo hi r c ≤ st.bestsize) ∧
  (∀ c, allowedCell a lo hi i c → c < m → kcell a lo hi i c ≤ st.bestsize) ∧
  (∀ x, nj x = if allowedCell a lo hi i x ∧ x < m then kcell a lo hi i x else 0)

/-- What holds of the inner loop's output on equal sequences. -/
def InnerOut (a : PyStr) (lo hi i : Nat) (R : (Nat → Nat) × FlmSt) : Prop :=
  R.2.besti = R.2.bestj ∧
  (R.2.bestsize = 0 → R.2.besti = lo ∧ R.2.bestj = lo) ∧
  (∀ r c, allowedCell a lo hi r c → r < i → kcell a lo hi r c ≤ R.2.bestsize) ∧
  (∀ c, allowedCell a lo hi i c → kcell a lo hi i c ≤ R.2.bestsize) ∧
  (∀ x, R.1 x = kcell a lo hi i x)

instance {α β : Type} [DecidableEq α] [DecidableEq β] : DecidableEq (Except α β) :=
  fun x y => by
    cases x <;> cases y
    case error.error a b => exact decidable_of_iff (a = b) (by simp)
    case ok.ok a b => exact decidable_of_iff (a = b) (by simp)
    all_goals exact isFalse (by intro h; cases h)

theorem kcell_eq (a : PyStr) (lo hi i j : Nat) :
    kcell a lo hi i j =
      if allowedCell a lo hi i j then
        (if lo < i ∧ 0 < j then kcell a lo hi (i - 1) (j - 1) else 0) + 1
      else 0 := by
  match i, j with
  | 0, j => simp [kcell]
  | i + 1, 0 => simp [kcell]
  | i + 1, j + 1 => simp [kcell]

theorem kcell_le_diag (a : PyStr) (lo hi : Nat) (hha : hi ≤ a.length) :
    ∀ i j, kcell a lo hi i j ≤ kcell a lo hi (min i j) (min i j) := by
  intro i
  induction i using Nat.strong_induction_on with
  | _ i ih =>
    intro j
    by_cases hA : allowedCell a lo hi i j
    · have hA1 := hA.1
      have hA2 := hA.2.1
      have hA3 := hA.2.2.1
      have hA4 := hA.2.2.2.1
      have hA5 := hA.2.2.2.2.1
      have hA6 := hA.2.2.2.2.2.1
      have hA7 := hA.2.2.2.2.2.2
      have hAm : allowedCell a lo hi (min i j) (min i j) := by
        refine ⟨by omega, by omega, by omega, by omega, by omega, rfl, ?_⟩
        rcases le_total i j with h | h
        · rw [Nat.min_eq_left h]; exact hA7
        · rw [Nat.min_eq_right h, hA6]; exact hA7
      rw [kcell_eq a lo hi i j, if_pos hA,
        kcell_eq a lo hi (min i j) (min i j), if_pos hAm]
      by_cases h1 : lo < i ∧ 0 < j
      · rw [if_pos h1]
        have hIH := ih (i - 1) (by omega) (j - 1)
        have hmm : min (i - 1) (j - 1) = min i j - 1 := by omega
        rw [hmm] at hIH
        by_cases h2 : lo < min i j ∧ 0 < min i j
        · rw [if_pos h2]; omega
        · rw [if_neg h2]
          have hz : kcell a lo hi (i - 1) (j - 1) = 0 := by
            rw [kcell_eq]
            rw [if_neg]
            intro hAc
            obtain ⟨hc1, _, hc3, _⟩ := hAc
            omega
          omega
      · rw [if_neg h1]; omega
    · rw [kcell_eq a lo hi i j, if_neg hA]
      omega

/-!
### Bounds for `find_longest_match` and the matching-blocks total

The returned block `(i, j, k)` always satisfies `alo ≤ i`, `blo ≤ j`,
`i + k ≤ max ahi alo` and `j + k ≤ max bhi blo` (for the ranges the
algorithm is actually called on, `alo ≤ ahi` and `blo ≤ bhi`, the maxima
are `ahi` and `bhi`).
-/

theorem flmInner_bounds (j2len : Nat → Nat) (i blo bhi alo Ma Mb : Nat)
    (hiA : alo ≤ i) (hiM : i + 1 ≤ Ma) (hbM : bhi ≤ Mb) :
    ∀ (js : List Nat) (nj : Nat → Nat) (st : FlmSt),
      (alo ≤ st.besti ∧ blo ≤ st.bestj ∧ st.besti + st.bestsize ≤ Ma ∧
        st.bestj + st.bestsize ≤ Mb) →
      (∀ x, j2len x ≠ 0 → j2len x + blo ≤ x + 1 ∧ j2len x + alo ≤ i) →
      (∀ x, nj x ≠ 0 → nj x + blo ≤ x + 1 ∧ nj x + alo ≤ i + 1) →
      (alo ≤ (flmInner j2len i blo bhi js nj st).2.besti ∧
        blo ≤ (flmInner j2len i blo bhi js nj st).2.bestj ∧
        (flmInner j2len i blo bhi js nj st).2.besti +
          (flmInner j2len i blo bhi js nj st).2.bestsize ≤ Ma ∧
        (flmInner j2len i blo bhi js nj st).2.bestj +
          (flmInner j2len i blo bhi js nj st).2.bestsize ≤ Mb) ∧
      (∀ x, (flmInner j2len i blo bhi js nj st).1 x ≠ 0 →
        (flmInner j2len i blo bhi js nj st).1 x + blo ≤ x + 1 ∧
        (flmInner j2len i blo bhi js nj st).1 x + alo ≤ i + 1) := by
  intro js
  induction js with
  | nil => intro nj st hst hj2 hnj; exact ⟨hst, hnj⟩
  | cons j js ih =>
    intro nj st hst hj2 hnj
    by_cases hj : blo ≤ j ∧ j < bhi
    · rw [flmInner, if_pos hj]
      have hk : ((if j = 0 then 0 else j2len (j - 1)) + 1) + blo ≤ j + 1 ∧
          ((if j = 0 then 0 else j2len (j - 1)) + 1) + alo ≤ i + 1 := by
        by_cases hj0 : j = 0
        · subst hj0; rw [if_pos rfl]; omega
        · rw [if_neg hj0]
          by_cases hz : j2len (j - 1) = 0
          · rw [hz]; omega
          · have := hj2 _ hz; omega
      apply ih
      · by_cases hup : st.bestsize < (if j = 0 then 0 else j2len (j - 1)) + 1
        · rw [if_pos hup]; dsimp only; omega
        · rw [if_neg hup]; exact hst
      · exact hj2
      · intro x hx
        by_cases hxj : x = j
        · subst hxj
          rw [if_pos rfl] at hx ⊢
          omega
        · rw [if_neg hxj] at hx ⊢
          exact hnj x hx
    · rw [flmInner, if_neg hj]
      exact ih nj st hst hj2 hnj

theorem flmRows_bounds (a b : PyStr) (blo bhi alo Ma Mb : Nat) (hbM : bhi ≤ Mb) :
    ∀ (n r : Nat) (j2len : Nat → Nat) (st : FlmSt),
      alo ≤ r → r + n ≤ Ma →
      (alo ≤ st.besti ∧ blo ≤ st.bestj ∧ st.besti + st.bestsize ≤ Ma ∧
        st.bestj + st.bestsize ≤ Mb) →
      (∀ x, j2len x ≠ 0 → j2len x + blo ≤ x + 1 ∧ j2len x + alo ≤ r) →
      (alo ≤ (flmRows a b blo bhi (List.range' r n) j2len st).besti ∧
        blo ≤ (flmRows a b blo bhi (List.range' r n) j2len st).bestj ∧
        (flmRows a b blo bhi (List.range' r n) j2len st).besti +
          (flmRows a b blo bhi (List.range' r n) j2len st).bestsize ≤ Ma ∧
        (flmRows a b blo bhi (List.range' r n) j2len st).bestj +
          (flmRows a b blo bhi (List.range' r n) j2len st).bestsize ≤ Mb) := by
  intro n
  induction n with
  | zero => intro r j2len st _ _ hst _; simpa [flmRows] using hst
  | succ n ih =>
    intro r j2len st hr hrn hst hj2
    rw [List.range'_succ, flmRows]
    have hin := flmInner_bounds j2len r blo bhi alo Ma Mb hr (by omega) hbM
      (b2jList b (a.getD r 0)) (fun _ => 0) st hst hj2 (by intro x hx; simp at hx)
    exact ih (r + 1) _ _ (by omega) (by omega) hin.1 hin.2

theorem extBack_bounds (a b : PyStr) (alo blo : Nat) (Ma Mb : Nat) :
    ∀ (fuel besti bestj k : Nat),
      alo ≤ besti → blo ≤ bestj → besti + k ≤ Ma → bestj + k ≤ Mb →
      (alo ≤ (extBack a b alo blo fuel besti bestj k).1 ∧
        blo ≤ (extBack a b alo blo fuel besti bestj k).2.1 ∧
        (extBack a b alo blo fuel besti bestj k).1 +
          (extBack a b alo blo fuel besti bestj k).2.2 ≤ Ma ∧
        (extBack a b alo blo fuel besti bestj k).2.1 +
          (extBack a b alo blo fuel besti bestj k).2.2 ≤ Mb) := by
  intro fuel
  induction fuel with
  | zero => intro besti bestj k h1 h2 h3 h4; exact ⟨h1, h2, h3, h4⟩
  | succ fuel ih =>
    intro besti bestj k h1 h2 h3 h4
    by_cases hg : alo < besti ∧ blo < bestj ∧
        a.getD (besti - 1) 0 = b.getD (bestj - 1) 0
    · rw [extBack, if_pos hg]
      exact ih _ _ _ (by omega) (by omega) (by omega) (by omega)
    · rw [extBack, if_neg hg]
      exact ⟨h1, h2, h3, h4⟩

theorem extFwd_bounds (a b : PyStr) (ahi bhi : Nat)
    (besti bestj Ma Mb : Nat) (haM : ahi ≤ Ma) (hbM : bhi ≤ Mb) :
    ∀ (fuel k : Nat), besti + k ≤ Ma → bestj + k ≤ Mb →
      (k ≤ extFwd a b ahi bhi besti bestj fuel k ∧
        besti + extFwd a b ahi bhi besti bestj fuel k ≤ Ma ∧
        bestj + extFwd a b ahi bhi besti bestj fuel k ≤ Mb) := by
  intro fuel
  induction fuel with
  | zero => intro k h1 h2; exact ⟨le_refl _, h1, h2⟩
  | succ fuel ih =>
    intro k h1 h2
    by_cases hg : besti + k < ahi ∧ bestj + k < bhi ∧
        a.getD (besti + k) 0 = b.getD (bestj + k) 0
    · rw [extFwd, if_pos hg]
      have := ih (k + 1) (by omega) (by omega)
      exact ⟨by omega, this.2.1, this.2.2⟩
    · rw [extFwd, if_neg hg]
      exact ⟨le_refl _, h1, h2⟩

theorem findLongestMatch_bounds (a b : PyStr) (alo ahi blo bhi : Nat) :
    alo ≤ (findLongestMatch a b alo ahi blo bhi).1 ∧
    blo ≤ (findLongestMatch a b alo ahi blo bhi).2.1 ∧
    (findLongestMatch a b alo ahi blo bhi).1 +
      (findLongestMatch a b alo ahi blo bhi).2.2 ≤ max ahi alo ∧
    (findLongestMatch a b alo ahi blo bhi).2.1 +
      (findLongestMatch a b alo ahi blo bhi).2.2 ≤ max bhi blo := by
  have h0 := flmRows_bounds a b blo bhi alo (max ahi alo) (max bhi blo)
    (le_max_left _ _) (ahi - alo) alo (fun _ => 0) ⟨alo, blo, 0⟩
    (le_refl _) (by omega)
    (by refine ⟨le_refl _, le_refl _, ?_, ?_⟩ <;> simp)
    (by intro x hx; simp at hx)
  simp only [findLongestMatch]
  generalize hG0 : flmRows a b blo bhi (List.range' alo (ahi - alo)) (fun _ => 0)
    ⟨alo, blo, 0⟩ = st0 at h0 ⊢
  have h1 := extBack_bounds a b alo blo (max ahi alo) (max bhi blo)
    st0.besti st0.besti st0.bestj st0.bestsize h0.1 h0.2.1 h0.2.2.1 h0.2.2.2
  generalize hG1 : extBack a b alo blo st0.besti st0.besti st0.bestj
    st0.bestsize = r1 at h1 ⊢
  have h2 := extFwd_bounds a b ahi bhi r1.1 r1.2.1 (max ahi alo) (max bhi blo)
    (le_max_left _ _) (le_max_left _ _) ahi r1.2.2 h1.2.2.1 h1.2.2.2
  generalize hG2 : extFwd a b ahi bhi r1.1 r1.2.1 ahi r1.2.2 = k2 at h2 ⊢
  exact ⟨h1.1, h1.2.1, h2.2.1, h2.2.2⟩

theorem matchesRecF_le (a b : PyStr) :
    ∀ (fuel alo ahi blo bhi : Nat), ahi - alo < fuel → alo ≤ ahi → blo ≤ bhi →
      matchesRecF a b fuel alo ahi blo bhi ≤ ahi - alo ∧
      matchesRecF a b fuel alo ahi blo bhi ≤ bhi - blo := by
  intro fuel
  induction fuel with
  | zero => intro alo ahi blo bhi h; omega
  | succ fuel ih =>
    intro alo ahi blo bhi hf ha hb
    have hbd := findLongestMatch_bounds a b alo ahi blo bhi
    rw [Nat.max_eq_left ha, Nat.max_eq_left hb] at hbd
    rw [matchesRecF]
    by_cases h0 : (findLongestMatch a b alo ahi blo bhi).2.2 = 0
    · rw [if_pos h0]; omega
    · rw [if_neg h0]
      have hL : (if alo < (findLongestMatch a b alo ahi blo bhi).1 ∧
            blo < (findLongestMatch a b alo ahi blo bhi).2.1 then
          matchesRecF a b fuel alo (findLongestMatch a b alo ahi blo bhi).1 blo
            (findLongestMatch a b alo ahi blo bhi).2.1 else 0) ≤
            (findLongestMatch a b alo ahi blo bhi).1 - alo ∧
          (if alo < (findLongestMatch a b alo ahi blo bhi).1 ∧
            blo < (findLongestMatch a b alo ahi blo bhi).2.1 then
          matchesRecF a b fuel alo (findLongestMatch a b alo ahi blo bhi).1 blo
            (findLongestMatch a b alo ahi blo bhi).2.1 else 0) ≤
            (findLongestMatch a b alo ahi blo bhi).2.1 - blo := by
        by_cases hLc : alo < (findLongestMatch a b alo ahi blo bhi).1 ∧
            blo < (findLongestMatch a b alo ahi blo bhi).2.1
        · rw [if_pos hLc]
          exact ih alo _ blo _ (by omega) (by omega) (by omega)
        · rw [if_neg hLc]; omega
      have hR : (if (findLongestMatch a b alo ahi blo bhi).1 +
              (findLongestMatch a b alo ahi blo bhi).2.2 < ahi ∧
            (findLongestMatch a b alo ahi blo bhi).2.1 +
              (findLongestMatch a b alo ahi blo bhi).2.2 < bhi then
          matchesRecF a b fuel
            ((findLongestMatch a b alo ahi blo bhi).1 +
              (findLongestMatch a b alo ahi blo bhi).2.2) ahi
            ((findLongestMatch a b alo ahi blo bhi).2.1 +
              (findLongestMatch a b alo ahi blo bhi).2.2) bhi else 0) ≤
            ahi - ((findLongestMatch a b alo ahi blo bhi).1 +
              (findLongestMatch a b alo ahi blo bhi).2.2) ∧
          (if (findLongestMatch a b alo ahi blo bhi).1 +
              (findLongestMatch a b alo ahi blo bhi).2.2 < ahi ∧
            (findLongestMatch a b alo ahi blo bhi).2.1 +
              (findLongestMatch a b alo ahi blo bhi).2.2 < bhi then
          matchesRecF a b fuel
            ((findLongestMatch a b alo ahi blo bhi).1 +
              (findLongestMatch a b alo ahi blo bhi).2.2) ahi
            ((findLongestMatch a b alo ahi blo bhi).2.1 +
              (findLongestMatch a b alo ahi blo bhi).2.2) bhi else 0) ≤
            bhi - ((findLongestMatch a b alo ahi blo bhi).2.1 +
              (findLongestMatch a b alo ahi blo bhi).2.2) := by
        by_cases hRc : (findLongestMatch a b alo ahi blo bhi).1 +
              (findLongestMatch a b alo ahi blo bhi).2.2 < ahi ∧
            (findLongestMatch a b alo ahi blo bhi).2.1 +
              (findLongestMatch a b alo ahi blo bhi).2.2 < bhi
        · rw [if_pos hRc]
          exact ih _ ahi _ bhi (by omega) (by omega) (by omega)
        · rw [if_neg hRc]; omega
      omega

theorem matchesTotal_le (a b : PyStr) :
    matchesTotal a b ≤ a.length ∧ matchesTotal a b ≤ b.length := by
  have := matchesRecF_le a b (a.length + 1) 0 a.length 0 b.length
    (by omega) (by omega) (by omega)
  simpa [matchesTotal] using this

/-!
### The diagonal property of `find_longest_match` on equal sequences

On `findLongestMatch a a lo hi lo hi` the returned block lies on the
diagonal and is nonempty when `lo < hi`.  The dynamic-programming loop is
related to its mathematical table `kcell`: `kcell i j` is the length of
the match run ending at cell `(i, j)` (0 for cells the loop never
touches).  Any run ending at `(i, j)` restricts to a diagonal run ending
at `(min i j, min i j)` processed no later, so by the time an off-diagonal
cell is reached its length can no longer beat `bestsize`, and every update
of the best block happens on the diagonal.
-/

theorem flmInner_diag (a : PyStr) (lo hi : Nat) (hha : hi ≤ a.length)
    (i : Nat) (hilo : lo ≤ i) (hihi : i < hi) (j2len : Nat → Nat)
    (hP : ∀ x, j2len x = if lo < i then kcell a lo hi (i - 1) x else 0) :
    ∀ (js : List Nat) (m : Nat) (nj : Nat → Nat) (st : FlmSt),
      (∀ j, j ∈ js ↔ (m ≤ j ∧ j < a.length ∧ a.getD j 0 = a.getD i 0 ∧
        bJunk a (a.getD i 0) = false)) →
      js.Pairwise (· < ·) →
      InnerInv a lo hi i m nj st →
      InnerOut a lo hi i (flmInner j2len i lo hi js nj st) := by
  intro js
  induction js with
  | nil =>
    intro m nj st hjs _ hInv
    obtain ⟨h1, h2, h3, h4, h5⟩ := hInv
    have hcm : ∀ c, allowedCell a lo hi i c → c < m := by
      intro c hc
      by_contra hge
      have : c ∈ ([] : List Nat) := (hjs c).mpr
        ⟨by omega, hc.2.2.2.2.1, hc.2.2.2.2.2.1, hc.2.2.2.2.2.2⟩
      simp at this
    rw [flmInner]
    refine ⟨h1, h2, h3, ?_, ?_⟩
    · intro c hc; exact h4 c hc (hcm c hc)
    · intro x
      dsimp only
      rw [h5 x]
      by_cases hx : allowedCell a lo hi i x
      · rw [if_pos ⟨hx, hcm x hx⟩]
      · rw [if_neg (by tauto), kcell_eq, if_neg hx]
  | cons j0 js ih =>
    intro m nj st hjs hpw hInv
    obtain ⟨h1, h2, h3, h4, h5⟩ := hInv
    have hj0 : m ≤ j0 ∧ j0 < a.length ∧ a.getD j0 0 = a.getD i 0 ∧
        bJunk a (a.getD i 0) = false := (hjs j0).mp (by simp)
    have hpw' : ∀ x ∈ js, j0 < x := (List.pairwise_cons.mp hpw).1
    have hpwt : js.Pairwise (· < ·) := (List.pairwise_cons.mp hpw).2
    -- membership characterisation for the tail with bound j0 + 1
    have hjs' : ∀ j, j ∈ js ↔ (j0 + 1 ≤ j ∧ j < a.length ∧
        a.getD j 0 = a.getD i 0 ∧ bJunk a (a.getD i 0) = false) := by
      intro j
      constructor
      · intro hj
        have := (hjs j).mp (by simp [hj])
        exact ⟨hpw' j hj, this.2⟩
      · intro hj
        have : j ∈ j0 :: js := (hjs j).mpr ⟨by omega, hj.2⟩
        rcases List.mem_cons.mp this with h | h
        · omega
        · exact h
    -- no column of this row lies in [m, j0)
    have hgap : ∀ c, allowedCell a lo hi i c → m ≤ c → c < j0 → False := by
      intro c hc hm hlt
      have : c ∈ j0 :: js := (hjs c).mpr
        ⟨hm, hc.2.2.2.2.1, hc.2.2.2.2.2.1, hc.2.2.2.2.2.2⟩
      rcases List.mem_cons.mp this with h | h
      · omega
      · exact absurd (hpw' c h) (by omega)
    by_cases hg : lo ≤ j0 ∧ j0 < hi
    · -- processed column
      have hAj0 : allowedCell a lo hi i j0 :=
        ⟨hilo, hihi, hg.1, hg.2, hj0.2.1, hj0.2.2.1, hj0.2.2.2⟩
      -- the computed k is the table value
      have hkeq : (if j0 = 0 then 0 else j2len (j0 - 1)) + 1 = kcell a lo hi i j0 := by
        rw [kcell_eq, if_pos hAj0]
        by_cases hz : j0 = 0
        · rw [if_pos hz, if_neg (by omega)]
        · rw [if_neg hz, hP (j0 - 1)]
          by_cases hli : lo < i
          · rw [if_pos hli, if_pos ⟨hli, by omega⟩]
          · rw [if_neg hli, if_neg (by tauto)]
      rw [flmInner, if_pos hg]
      dsimp only
      by_cases hup : st.bestsize < (if j0 = 0 then 0 else j2len (j0 - 1)) + 1
      · -- update fires: it must be on the diagonal
        have hdiag : j0 = i := by
          by_contra hne
          rcases Nat.lt_or_ge j0 i with hlt | hge
          · -- j0 < i: the diagonal cell (j0, j0) of an earlier row dominates
            have hAd : allowedCell a lo hi j0 j0 := by
              refine ⟨hg.1, hg.2, hg.1, hg.2, hj0.2.1, rfl, ?_⟩
              rw [hj0.2.2.1]; exact hj0.2.2.2
            have hd := h3 j0 j0 hAd hlt
            have hk1 := kcell_le_diag a lo hi hha i j0
            rw [Nat.min_eq_right (by omega)] at hk1
            omega
          · -- i < j0: the diagonal cell (i, i) of this row dominates
            have hane : i < j0 := by omega
            have hAd : allowedCell a lo hi i i := by
              refine ⟨hilo, hihi, hilo, hihi, by omega, rfl, hj0.2.2.2⟩
            have him : i < m := by
              by_contra hgem
              exact hgap i hAd (by omega) hane
            have hd := h4 i hAd him
            have hk1 := kcell_le_diag a lo hi hha i j0
            rw [Nat.min_eq_left (by omega)] at hk1
            omega
        subst hdiag
        rw [if_pos hup]
        apply ih (j0 + 1) _ _ hjs' hpwt
        refine ⟨rfl, ?_, ?_, ?_, ?_⟩
        · intro hz
          exact absurd hz (Nat.succ_ne_zero _)
        · intro r c hrc hr
          have hle := h3 r c hrc hr
          show kcell a lo hi r c ≤ (if j0 = 0 then 0 else j2len (j0 - 1)) + 1
          omega
        · intro c hc hcm1
          show kcell a lo hi j0 c ≤ (if j0 = 0 then 0 else j2len (j0 - 1)) + 1
          rcases Nat.lt_or_ge c m with hcm | hcm
          · have := h4 c hc hcm; omega
          · have : c = j0 := by
              by_contra hne
              exact hgap c hc hcm (by omega)
            subst this
            omega
        · intro x
          dsimp only
          by_cases hx : x = j0
          · subst hx
            have hc2 : allowedCell a lo hi x x ∧ x < x + 1 :=
              ⟨hAj0, Nat.lt_succ_self _⟩
            rw [if_pos rfl, if_pos hc2]
            exact hkeq
          · rw [if_neg hx, h5 x]
            by_cases hxa : allowedCell a lo hi j0 x
            · by_cases hxm : x < m
              · have hcm1 : allowedCell a lo hi j0 x ∧ x < m := ⟨hxa, hxm⟩
                have hcm2 : allowedCell a lo hi j0 x ∧ x < j0 + 1 := ⟨hxa, by omega⟩
                rw [if_pos hcm1, if_pos hcm2]
              · rw [if_neg (show ¬(allowedCell a lo hi j0 x ∧ x < m) from
                    fun hc => hxm hc.2),
                  if_neg (show ¬(allowedCell a lo hi j0 x ∧ x < j0 + 1) by
                    intro hc
                    rcases Nat.lt_or_ge x j0 with hlt | hge
                    · exact hgap x hxa (by omega) hlt
                    · omega)]
            · rw [if_neg (show ¬(allowedCell a lo hi j0 x ∧ x < m) from
                  fun hc => hxa hc.1),
                if_neg (show ¬(allowedCell a lo hi j0 x ∧ x < j0 + 1) from
                  fun hc => hxa hc.1)]
      · -- no update
        rw [if_neg hup]
        apply ih (j0 + 1) _ _ hjs' hpwt
        refine ⟨h1, h2, h3, ?_, ?_⟩
        · intro c hc hcm1
          rcases Nat.lt_or_ge c m with hcm | hcm
          · exact h4 c hc hcm
          · have : c = j0 := by
              by_contra hne
              exact hgap c hc hcm (by omega)
            subst this
            omega
        · intro x
          dsimp only
          by_cases hx : x = j0
          · subst hx
            have hc2 : allowedCell a lo hi i x ∧ x < x + 1 :=
              ⟨hAj0, Nat.lt_succ_self _⟩
            rw [if_pos rfl, if_pos hc2]
            exact hkeq
          · rw [if_neg hx, h5 x]
            by_cases hxa : allowedCell a lo hi i x
            · by_cases hxm : x < m
              · have hcm1 : allowedCell a lo hi i x ∧ x < m := ⟨hxa, hxm⟩
                have hcm2 : allowedCell a lo hi i x ∧ x < j0 + 1 := ⟨hxa, by omega⟩
                rw [if_pos hcm1, if_pos hcm2]
              · rw [if_neg (show ¬(allowedCell a lo hi i x ∧ x < m) from
                    fun hc => hxm hc.2),
                  if_neg (show ¬(allowedCell a lo hi i x ∧ x < j0 + 1) by
                    intro hc
                    rcases Nat.lt_or_ge x j0 with hlt | hge
                    · exact hgap x hxa (by omega) hlt
                    · omega)]
            · rw [if_neg (show ¬(allowedCell a lo hi i x ∧ x < m) from
                  fun hc => hxa hc.1),
                if_neg (show ¬(allowedCell a lo hi i x ∧ x < j0 + 1) from
                  fun hc => hxa hc.1)]
    · -- skipped column (out of [lo, hi)): nothing changes
      rw [flmInner, if_neg hg]
      apply ih (j0 + 1) _ _ hjs' hpwt
      refine ⟨h1, h2, h3, ?_, ?_⟩
      · intro c hc hcm1
        rcases Nat.lt_or_ge c m with hcm | hcm
        · exact h4 c hc hcm
        · rcases Nat.lt_or_ge c j0 with hlt | hge
          · exact absurd (hgap c hc hcm hlt) not_false
          · have : c = j0 := by omega
            subst this
            exact absurd ⟨hc.2.2.1, hc.2.2.2.1⟩ hg
      · intro x
        rw [h5 x]
        by_cases hxa : allowedCell a lo hi i x
        · by_cases hxm : x < m
          · have hcm1 : allowedCell a lo hi i x ∧ x < m := ⟨hxa, hxm⟩
            have hcm2 : allowedCell a lo hi i x ∧ x < j0 + 1 := ⟨hxa, by omega⟩
            rw [if_pos hcm1, if_pos hcm2]
          · rw [if_neg (show ¬(allowedCell a lo hi i x ∧ x < m) from
                fun hc => hxm hc.2),
              if_neg (show ¬(allowedCell a lo hi i x ∧ x < j0 + 1) by
                intro hc
                rcases Nat.lt_or_ge x j0 with hlt | hge
                · exact hgap x hxa (by omega) hlt
                · have : x = j0 := by omega
                  subst this
                  exact hg ⟨hxa.2.2.1, hxa.2.2.2.1⟩)]
        · rw [if_neg (show ¬(allowedCell a lo hi i x ∧ x < m) from
              fun hc => hxa hc.1),
            if_neg (show ¬(allowedCell a lo hi i x ∧ x < j0 + 1) from
              fun hc => hxa hc.1)]

theorem flmRows_diag (a : PyStr) (lo hi : Nat) (hha : hi ≤ a.length) :
    ∀ (n r : Nat) (j2len : Nat → Nat) (st : FlmSt),
      lo ≤ r → r + n = hi →
      (∀ x, j2len x = if lo < r then kcell a lo hi (r - 1) x else 0) →
      st.besti = st.bestj →
      (st.bestsize = 0 → st.besti = lo ∧ st.bestj = lo) →
      (∀ rr c, allowedCell a lo hi rr c → rr < r → kcell a lo hi rr c ≤ st.bestsize) →
      ((flmRows a a lo hi (List.range' r n) j2len st).besti =
          (flmRows a a lo hi (List.range' r n) j2len st).bestj ∧
        ((flmRows a a lo hi (List.range' r n) j2len st).bestsize = 0 →
          (flmRows a a lo hi (List.range' r n) j2len st).besti = lo ∧
          (flmRows a a lo hi (List.range' r n) j2len st).bestj = lo)) := by
  intro n
  induction n with
  | zero =>
    intro r j2len st _ _ _ hd hz _
    simpa [flmRows] using ⟨hd, hz⟩
  | succ n ih =>
    intro r j2len st hr hrn hP hd hz hbnd
    rw [List.range'_succ, flmRows]
    have hjs : ∀ j, j ∈ b2jList a (a.getD r 0) ↔ (0 ≤ j ∧ j < a.length ∧
        a.getD j 0 = a.getD r 0 ∧ bJunk a (a.getD r 0) = false) := by
      intro j
      simp only [b2jList]
      cases hjk : bJunk a (a.getD r 0) with
      | true => rw [if_pos rfl]; simp
      | false =>
        rw [if_neg (by simp)]
        simp [List.mem_filter, List.mem_range]
    have hpw : (b2jList a (a.getD r 0)).Pairwise (· < ·) := by
      simp only [b2jList]
      cases hjk : bJunk a (a.getD r 0) with
      | true => rw [if_pos rfl]; exact List.Pairwise.nil
      | false =>
        rw [if_neg (by simp)]
        exact List.Pairwise.sublist (List.filter_sublist _) (List.pairwise_lt_range _)
    have hrow := flmInner_diag a lo hi hha r hr (by omega) j2len hP
      (b2jList a (a.getD r 0)) 0 (fun _ => 0) st hjs hpw
      ⟨hd, hz, hbnd, fun c _ hlt => absurd hlt (Nat.not_lt_zero c),
        fun x => by rw [if_neg (fun hc => absurd hc.2 (Nat.not_lt_zero x))]⟩
    obtain ⟨hd', hz', hb3, hb4, hnj⟩ := hrow
    apply ih (r + 1) _ _ (by omega) (by omega) ?_ hd' hz' ?_
    · intro x
      rw [if_pos (by omega : lo < r + 1)]
      have : r + 1 - 1 = r := by omega
      rw [this]
      exact hnj x
    · intro rr c hc hlt
      rcases Nat.lt_or_ge rr r with h | h
      · exact hb3 rr c hc h
      · have : rr = r := by omega
        subst this
        exact hb4 c hc

theorem extBack_at_lo (a b : PyStr) (lo : Nat) :
    ∀ (fuel k : Nat), extBack a b lo lo fuel lo lo k = (lo, lo, k) := by
  intro fuel k
  cases fuel with
  | zero => rfl
  | succ fuel => rw [extBack, if_neg (fun hc => absurd hc.1 (lt_irrefl lo))]

theorem extBack_diag (a : PyStr) (lo : Nat) :
    ∀ (fuel i k : Nat),
      (extBack a a lo lo fuel i i k).1 = (extBack a a lo lo fuel i i k).2.1 ∧
      k ≤ (extBack a a lo lo fuel i i k).2.2 := by
  intro fuel
  induction fuel with
  | zero => intro i k; exact ⟨rfl, le_refl _⟩
  | succ fuel ih =>
    intro i k
    by_cases hg : lo < i ∧ lo < i ∧
        a.getD (i - 1) 0 = a.getD (i - 1) 0
    · rw [extBack, if_pos hg]
      have := ih (i - 1) (k + 1)
      exact ⟨this.1, by omega⟩
    · rw [extBack, if_neg hg]
      exact ⟨rfl, le_refl _⟩

theorem extFwd_ge (a b : PyStr) (ahi bhi : Nat) (besti bestj : Nat) :
    ∀ (fuel k : Nat), k ≤ extFwd a b ahi bhi besti bestj fuel k := by
  intro fuel
  induction fuel with
  | zero => intro k; exact le_refl _
  | succ fuel ih =>
    intro k
    by_cases hg : besti + k < ahi ∧ bestj + k < bhi ∧
        a.getD (besti + k) 0 = b.getD (bestj + k) 0
    · rw [extFwd, if_pos hg]
      have := ih (k + 1)
      omega
    · rw [extFwd, if_neg hg]

theorem findLongestMatch_diag (a : PyStr) (lo hi : Nat)
    (hlh : lo ≤ hi) (hha : hi ≤ a.length) :
    (findLongestMatch a a lo hi lo hi).1 = (findLongestMatch a a lo hi lo hi).2.1 ∧
    (lo < hi → 1 ≤ (findLongestMatch a a lo hi lo hi).2.2) := by
  have hst := flmRows_diag a lo hi hha (hi - lo) lo (fun _ => 0) ⟨lo, lo, 0⟩
    (le_refl _) (by omega) (fun x => by simp)
    rfl (fun _ => ⟨rfl, rfl⟩)
    (fun rr c hc hlt => absurd hlt (by have := hc.1; omega))
  simp only [findLongestMatch]
  generalize hG0 : flmRows a a lo hi (List.range' lo (hi - lo)) (fun _ => 0)
    ⟨lo, lo, 0⟩ = st0 at hst ⊢
  obtain ⟨hd0, hz0⟩ := hst
  rw [← hd0]
  rcases Nat.eq_zero_or_pos st0.bestsize with hzz | hpos
  · -- empty best block `(lo, lo, 0)`: the backward loop cannot move, and
    -- the forward loop extends at least one step when `lo < hi`.
    have hb1 : st0.besti = lo := (hz0 hzz).1
    rw [hb1, hzz, extBack_at_lo]
    dsimp only
    refine ⟨rfl, fun hlt => ?_⟩
    obtain ⟨f, hf⟩ : ∃ f, hi = f + 1 := ⟨hi - 1, by omega⟩
    subst hf
    rw [extFwd, if_pos (⟨by omega, by omega, rfl⟩ :
      lo + 0 < f + 1 ∧ lo + 0 < f + 1 ∧
      a.getD (lo + 0) 0 = a.getD (lo + 0) 0)]
    have := extFwd_ge a a (f + 1) (f + 1) lo lo f (0 + 1)
    omega
  · -- nonempty best block: the extension loops only grow it
    have h1 := extBack_diag a lo st0.besti st0.besti st0.bestsize
    generalize hg1 : extBack a a lo lo st0.besti st0.besti st0.besti
      st0.bestsize = E1 at h1 ⊢
    obtain ⟨h1d, h1k⟩ := h1
    rw [← h1d]
    have h2 := extFwd_ge a a hi hi E1.1 E1.1 hi E1.2.2
    generalize hg2 : extFwd a a hi hi E1.1 E1.1 hi E1.2.2 = K2 at h2 ⊢
    exact ⟨rfl, fun _ => by omega⟩

theorem matchesRecF_self (a : PyStr) :
    ∀ (fuel lo hi : Nat), hi - lo < fuel → lo ≤ hi → hi ≤ a.length →
      matchesRecF a a fuel lo hi lo hi = hi - lo := by
  intro fuel
  induction fuel with
  | zero => intro lo hi h; omega
  | succ fuel ih =>
    intro lo hi hf hlh hha
    have hbd := findLongestMatch_bounds a a lo hi lo hi
    rw [Nat.max_eq_left hlh] at hbd
    have hdg := findLongestMatch_diag a lo hi hlh hha
    rw [matchesRecF]
    by_cases h0 : (findLongestMatch a a lo hi lo hi).2.2 = 0
    · rw [if_pos h0]
      by_cases hlt : lo < hi
      · have := hdg.2 hlt; omega
      · omega
    · rw [if_neg h0]
      have hij := hdg.1
      rw [← hij]
      have hL : (if lo < (findLongestMatch a a lo hi lo hi).1 ∧
            lo < (findLongestMatch a a lo hi lo hi).1 then
          matchesRecF a a fuel lo (findLongestMatch a a lo hi lo hi).1 lo
            (findLongestMatch a a lo hi lo hi).1 else 0) =
          (findLongestMatch a a lo hi lo hi).1 - lo := by
        by_cases hc : lo < (findLongestMatch a a lo hi lo hi).1 ∧
            lo < (findLongestMatch a a lo hi lo hi).1
        · rw [if_pos hc]
          exact ih lo _ (by omega) (by omega) (by omega)
        · rw [if_neg hc]
          omega
      have hR : (if (findLongestMatch a a lo hi lo hi).1 +
              (findLongestMatch a a lo hi lo hi).2.2 < hi ∧
            (findLongestMatch a a lo hi lo hi).1 +
              (findLongestMatch a a lo hi lo hi).2.2 < hi then
          matchesRecF a a fuel
            ((findLongestMatch a a lo hi lo hi).1 +
              (findLongestMatch a a lo hi lo hi).2.2) hi
            ((findLongestMatch a a lo hi lo hi).1 +
              (findLongestMatch a a lo hi lo hi).2.2) hi else 0) =
          hi - ((findLongestMatch a a lo hi lo hi).1 +
            (findLongestMatch a a lo hi lo hi).2.2) := by
        by_cases hc : (findLongestMatch a a lo hi lo hi).1 +
              (findLongestMatch a a lo hi lo hi).2.2 < hi ∧
            (findLongestMatch a a lo hi lo hi).1 +
              (findLongestMatch a a lo hi lo hi).2.2 < hi
        · rw [if_pos hc]
          exact ih _ hi (by omega) (by omega) hha
        · rw [if_neg hc]
          omega
      rw [hL, hR]
      omega

theorem matchesTotal_self (a : PyStr) : matchesTotal a a = a.length := by
  have := matchesRecF_self a (a.length + 1) 0 a.length (by omega) (by omega)
    (le_refl _)
  simpa [matchesTotal] using this

theorem lookup_pair_mem {l : List (Nat × List Nat)} :
    ∀ {c : Nat} {v : List Nat}, List.lookup c l = some v → (c, v) ∈ l := by
  induction l with
  | nil => intro c v h; exact absurd h (by simp)
  | cons e es ih =>
    intro c v h
    obtain ⟨k, b⟩ := e
    rw [List.lookup] at h
    cases hc : c == k with
    | true =>
      simp only [hc] at h
      have hv : b = v := Option.some.inj h
      have hk : c = k := eq_of_beq hc
      subst hv
      subst hk
      exact List.mem_cons_self _ _
    | false =>
      simp only [hc] at h
      exact List.mem_cons_of_mem _ (ih h)

theorem bucket_lower_fixed {T : List (Nat × List Nat)}
    (hT : T.all (fun e => (!e.2.isEmpty) &&
      e.2.all (fun x => pyLowerChar x == [x])) = true)
    {c : Nat} {l : List Nat} (h : List.lookup c T = some l) :
    l ≠ [] ∧ ∀ x ∈ l, pyLowerChar x = [x] := by
  have hmem := lookup_pair_mem h
  have hfact : ((!l.isEmpty) && l.all (fun x => pyLowerChar x == [x])) = true :=
    List.all_eq_true.mp hT (c, l) hmem
  rw [Bool.and_eq_true] at hfact
  constructor
  · intro hnil
    rw [hnil] at hfact
    exact absurd hfact.1 (by decide)
  · intro x hx
    exact eq_of_beq (List.all_eq_true.mp hfact.2 x hx)

theorem lowerT0_fixed : lowerT0.all (fun e => (!e.2.isEmpty) &&
    e.2.all (fun x => pyLowerChar x == [x])) = true := by decide

theorem lowerT1_fixed : lowerT1.all (fun e => (!e.2.isEmpty) &&
    e.2.all (fun x => pyLowerChar x == [x])) = true := by decide

theorem lowerT2_fixed : lowerT2.all (fun e => (!e.2.isEmpty) &&
    e.2.all (fun x => pyLowerChar x == [x])) = true := by decide

theorem lowerT3_fixed : lowerT3.all (fun e => (!e.2.isEmpty) &&
    e.2.all (fun x => pyLowerChar x == [x])) = true := by decide

theorem lowerT4_fixed : lowerT4.all (fun e => (!e.2.isEmpty) &&
    e.2.all (fun x => pyLowerChar x == [x])) = true := by decide

theorem lowerT5_fixed : lowerT5.all (fun e => (!e.2.isEmpty) &&
    e.2.all (fun x => pyLowerChar x == [x])) = true := by decide

theorem lowerT6_fixed : lowerT6.all (fun e => (!e.2.isEmpty) &&
    e.2.all (fun x => pyLowerChar x == [x])) = true := by decide

theorem lowerT7_fixed : lowerT7.all (fun e => (!e.2.isEmpty) &&
    e.2.all (fun x => pyLowerChar x == [x])) = true := by decide

theorem lowerT8_fixed : lowerT8.all (fun e => (!e.2.isEmpty) &&
    e.2.all (fun x => pyLowerChar x == [x])) = true := by decide

theorem lowerT9_fixed : lowerT9.all (fun e => (!e.2.isEmpty) &&
    e.2.all (fun x => pyLowerChar x == [x])) = true := by decide

theorem lowerT10_fixed : lowerT10.all (fun e => (!e.2.isEmpty) &&
    e.2.all (fun x => pyLowerChar x == [x])) = true := by decide

theorem lowerT11_fixed : lowerT11.all (fun e => (!e.2.isEmpty) &&
    e.2.all (fun x => pyLowerChar x == [x])) = true := by decide

theorem lowerT12_fixed : lowerT12.all (fun e => (!e.2.isEmpty) &&
    e.2.all (fun x => pyLowerChar x == [x])) = true := by decide

theorem lowerT13_fixed : lowerT13.all (fun e => (!e.2.isEmpty) &&
    e.2.all (fun x => pyLowerChar x == [x])) = true := by decide

theorem lowerT14_fixed : lowerT14.all (fun e => (!e.2.isEmpty) &&
    e.2.all (fun x => pyLowerChar x == [x])) = true := by decide

theorem lowerT15_fixed : lowerT15.all (fun e => (!e.2.isEmpty) &&
    e.2.all (fun x => pyLowerChar x == [x])) = true := by decide

/-- Every successful `lowerLookup` result is a non-empty list of
lower-fixed code points. -/
theorem lowerLookup_fixed {c : Nat} {l : List Nat}
    (h : lowerLookup c = some l) :
    l ≠ [] ∧ ∀ x ∈ l, pyLowerChar x = [x] := by
  unfold lowerLookup at h
  split_ifs at h <;>
    first
    | exact bucket_lower_fixed lowerT0_fixed h
    | exact bucket_lower_fixed lowerT1_fixed h
    | exact bucket_lower_fixed lowerT2_fixed h
    | exact bucket_lower_fixed lowerT3_fixed h
    | exact bucket_lower_fixed lowerT4_fixed h
    | exact bucket_lower_fixed lowerT5_fixed h
    | exact bucket_lower_fixed lowerT6_fixed h
    | exact bucket_lower_fixed lowerT7_fixed h
    | exact bucket_lower_fixed lowerT8_fixed h
    | exact bucket_lower_fixed lowerT9_fixed h
    | exact bucket_lower_fixed lowerT10_fixed h
    | exact bucket_lower_fixed lowerT11_fixed h
    | exact bucket_lower_fixed lowerT12_fixed h
    | exact bucket_lower_fixed lowerT13_fixed h
    | exact bucket_lower_fixed lowerT14_fixed h
    | exact bucket_lower_fixed lowerT15_fixed h

/-- The image of any code point under `str.lower` consists of lower-fixed
code points (Unicode lowering is idempotent). -/
theorem pyLowerChar_fixed {c x : Nat} (hx : x ∈ pyLowerChar c) :
    pyLowerChar x = [x] := by
  unfold pyLowerChar at hx
  split_ifs at hx with h1 h2
  · have hxe : x = c + 32 := by simpa using hx
    subst hxe
    unfold pyLowerChar
    rw [if_neg (by omega), if_pos (by omega)]
  · have hxe : x = c := by simpa using hx
    subst hxe
    unfold pyLowerChar
    rw [if_neg h1, if_pos h2]
  · cases hl : lowerLookup c with
    | none =>
      simp only [hl] at hx
      have hxe : x = c := by simpa using hx
      subst hxe
      unfold pyLowerChar
      rw [if_neg h1, if_neg h2]
      simp only [hl]
    | some l =>
      simp only [hl] at hx
      exact (lowerLookup_fixed hl).2 x hx

/-- `str.lower` maps no code point to the empty string. -/
theorem pyLowerChar_ne_nil (c : Nat) : pyLowerChar c ≠ [] := by
  unfold pyLowerChar
  split_ifs with h1 h2
  · simp
  · simp
  · cases hl : lowerLookup c with
    | none => simp
    | some l =>
      simp only [hl]
      exact (lowerLookup_fixed hl).1

/-- `pyLower` fixes any string of lower-fixed code points. -/
theorem pyLower_fixed_list :
    ∀ (l : PyStr), (∀ x ∈ l, pyLowerChar x = [x]) → pyLower l = l := by
  intro l
  induction l with
  | nil => intro _; rfl
  | cons c cs ih =>
    intro h
    show ((c :: cs).map pyLowerChar).flatten = c :: cs
    rw [List.map_cons, List.flatten_cons, h c (List.mem_cons_self _ _)]
    show [c] ++ pyLower cs = c :: cs
    rw [ih (fun x hx => h x (List.mem_cons_of_mem _ hx))]
    rfl

theorem pyLower_idem (s : PyStr) : pyLower (pyLower s) = pyLower s := by
  apply pyLower_fixed_list
  intro x hx
  have hx2 : x ∈ (s.map pyLowerChar).flatten := hx
  obtain ⟨lx, hlx, hxl⟩ := List.mem_flatten.mp hx2
  obtain ⟨c, _, hc⟩ := List.mem_map.mp hlx
  subst hc
  exact pyLowerChar_fixed hxl

theorem pyLower_ne_nil {a : PyStr} (h : a ≠ []) : pyLower a ≠ [] := by
  cases a with
  | nil => exact absurd rfl h
  | cons c cs =>
    show ((c :: cs).map pyLowerChar).flatten ≠ []
    rw [List.map_cons, List.flatten_cons]
    intro hc
    exact pyLowerChar_ne_nil c (List.append_eq_nil.mp hc).1

theorem ratioQ_nonneg (m t : Nat) : 0 ≤ ratioQ m t := by
  unfold ratioQ
  split_ifs with h
  · norm_num
  · rw [Rat.mkRat_eq_div]
    positivity

theorem ratioQ_le_one (m t : Nat) (h : 2 * m ≤ t) : ratioQ m t ≤ 1 := by
  unfold ratioQ
  split_ifs with h0
  · exact le_refl _
  · rw [Rat.mkRat_eq_div]
    rw [div_le_one (by exact_mod_cast Nat.pos_of_ne_zero h0)]
    exact_mod_cast h

theorem calculate_similarity_nonneg (a b : PyStr) :
    0 ≤ calculate_similarity a b := by
  unfold calculate_similarity smRatioQ
  exact ratioQ_nonneg _ _

theorem calculate_similarity_le_one (a b : PyStr) :
    calculate_similarity a b ≤ 1 := by
  unfold calculate_similarity smRatioQ
  have h := matchesTotal_le (pyLower a) (pyLower b)
  exact ratioQ_le_one _ _ (by omega)

theorem calculate_similarity_lower (a b : PyStr) :
    calculate_similarity a b = calculate_similarity (pyLower a) (pyLower b) := by
  unfold calculate_similarity
  rw [pyLower_idem, pyLower_idem]

theorem calculate_similarity_self (a : PyStr) (h : a ≠ []) :
    calculate_similarity a a = 1 := by
  unfold calculate_similarity smRatioQ
  rw [matchesTotal_self]
  have hne : (pyLower a).length ≠ 0 :=
    fun hc => pyLower_ne_nil h (List.length_eq_zero.mp hc)
  unfold ratioQ
  rw [if_neg (by omega), Rat.mkRat_eq_div]
  rw [div_eq_one_iff_eq (by exact_mod_cast
    (by omega : (pyLower a).length + (pyLower a).length ≠ 0))]
  push_cast
  ring

/-!
### Ranking, dispatch and attempt-level lemmas
-/

theorem applyOverride_song (st : Option PyStr) (p : ParsedQuery) :
    (applyOverride st p).song = p.song := by
  cases st with
  | none => rfl
  | some t =>
    simp only [applyOverride]
    split_ifs <;> rfl

theorem applyOverride_artist (st : Option PyStr) (p : ParsedQuery) :
    (applyOverride st p).artist = p.artist := by
  cases st with
  | none => rfl
  | some t =>
    simp only [applyOverride]
    split_ifs <;> rfl

theorem selectGo_none (song : PyStr) :
    ∀ (l : List Track) (b : Option Track) (h : ℚ),
      (∀ t ∈ l, calculate_similarity song t.name ≤ h) →
      selectGo song b h l = b := by
  intro l
  induction l with
  | nil => intro b h _; rfl
  | cons t ts ih =>
    intro b h hall
    rw [selectGo, if_neg (not_lt.mpr (hall t (by simp)))]
    exact ih b h (fun u hu => hall u (by simp [hu]))

theorem selectGo_mem (song : PyStr) :
    ∀ (l : List Track) (b : Option Track) (h : ℚ) (t : Track),
      selectGo song b h l = some t → some t = b ∨ t ∈ l := by
  intro l
  induction l with
  | nil => intro b h t hsel; exact Or.inl hsel.symm
  | cons u ts ih =>
    intro b h t hsel
    rw [selectGo] at hsel
    by_cases hc : h < calculate_similarity song u.name
    · rw [if_pos hc] at hsel
      rcases ih (some u) _ t hsel with h' | h'
      · have : t = u := Option.some.inj h'
        exact Or.inr (by simp [this])
      · exact Or.inr (by simp [h'])
    · rw [if_neg hc] at hsel
      rcases ih b h t hsel with h' | h'
      · exact Or.inl h'
      · exact Or.inr (by simp [h'])

theorem selectGo_first_max (song : PyStr) :
    ∀ (l : List Track) (b : Option Track) (h : ℚ),
      (∃ t ∈ l, h < calculate_similarity song t.name) →
      ∃ n t, l.get? n = some t ∧ selectGo song b h l = some t ∧
        h < calculate_similarity song t.name ∧
        (∀ u ∈ l, calculate_similarity song u.name ≤
          calculate_similarity song t.name) ∧
        (∀ m u, m < n → l.get? m = some u →
          calculate_similarity song u.name < calculate_similarity song t.name) := by
  intro l
  induction l with
  | nil => intro b h hex; simp at hex
  | cons t ts ih =>
    intro b h hex
    by_cases hs : h < calculate_similarity song t.name
    · rw [selectGo, if_pos hs]
      by_cases hall : ∀ u ∈ ts, calculate_similarity song u.name ≤
          calculate_similarity song t.name
      · refine ⟨0, t, rfl, selectGo_none song ts (some t) _ hall, hs, ?_, ?_⟩
        · intro u hu
          rcases List.mem_cons.mp hu with h' | h'
          · subst h'; exact le_refl _
          · exact hall u h'
        · intro m u hm _; omega
      · push_neg at hall
        obtain ⟨n, t', hget, hsel, hgt, hmax, hfirst⟩ :=
          ih (some t) (calculate_similarity song t.name) hall
        refine ⟨n + 1, t', by simpa using hget, hsel, lt_trans hs hgt, ?_, ?_⟩
        · intro u hu
          rcases List.mem_cons.mp hu with h' | h'
          · subst h'; exact le_of_lt hgt
          · exact hmax u h'
        · intro m u hm hget'
          cases m with
          | zero =>
            have hh : t = u := by simpa using hget'
            subst hh; exact hgt
          | succ m => exact hfirst m u (by omega) (by simpa using hget')
    · rw [selectGo, if_neg hs]
      have hex' : ∃ u ∈ ts, h < calculate_similarity song u.name := by
        obtain ⟨u, hu, hlt⟩ := hex
        rcases List.mem_cons.mp hu with h' | h'
        · subst h'; exact absurd hlt hs
        · exact ⟨u, h', hlt⟩
      obtain ⟨n, t', hget, hsel, hgt, hmax, hfirst⟩ := ih b h hex'
      refine ⟨n + 1, t', by simpa using hget, hsel, hgt, ?_, ?_⟩
      · intro u hu
        rcases List.mem_cons.mp hu with h' | h'
        · subst h'; exact le_of_lt (lt_of_le_of_lt (not_lt.mp hs) hgt)
        · exact hmax u h'
      · intro m u hm hget'
        cases m with
        | zero =>
          have hh : t = u := by simpa using hget'
          subst hh
          exact lt_of_le_of_lt (not_lt.mp hs) hgt
        | succ m => exact hfirst m u (by omega) (by simpa using hget')

theorem rank_mem (p : ParsedQuery) (ts : List Track) (t : Track)
    (h : rank p ts = some t) : t ∈ filterByArtist p ts := by
  unfold rank at h
  rcases selectGo_mem p.song (filterByArtist p ts) none 0 t h with h' | h'
  · exact absurd h' (by simp)
  · exact h'

theorem rank_none_iff (p : ParsedQuery) (ts : List Track) :
    rank p ts = none ↔
      ∀ t ∈ filterByArtist p ts, calculate_similarity p.song t.name = 0 := by
  unfold rank
  constructor
  · intro h t ht
    by_contra hne
    have hpos : 0 < calculate_similarity p.song t.name :=
      lt_of_le_of_ne (calculate_similarity_nonneg _ _) (Ne.symm hne)
    obtain ⟨n, t', _, hsel, _⟩ :=
      selectGo_first_max p.song (filterByArtist p ts) none 0 ⟨t, ht, hpos⟩
    rw [h] at hsel
    cases hsel
  · intro h
    exact selectGo_none p.song _ none 0 (fun t ht => le_of_eq (h t ht))

theorem find?_active_first :
    ∀ (l : List Device) (d : Device),
      l.find? (fun d => d.is_active) = some d →
      ∃ n, l.get? n = some d ∧ d.is_active = true ∧
        (∀ m u, m < n → l.get? m = some u → u.is_active = false) := by
  intro l
  induction l with
  | nil => intro d h; simp at h
  | cons x xs ih =>
    intro d h
    cases hx : x.is_active with
    | true =>
      rw [List.find?_cons_of_pos _ hx] at h
      have : d = x := by injection h.symm
      subst this
      exact ⟨0, rfl, hx, fun m u hm _ => absurd hm (by omega)⟩
    | false =>
      rw [List.find?_cons_of_neg _ (by simp [hx])] at h
      obtain ⟨n, hget, hact, hfirst⟩ := ih d h
      refine ⟨n + 1, by simpa using hget, hact, ?_⟩
      intro m u hm hget'
      cases m with
      | zero =>
        have hh : x = u := by simpa using hget'
        subst hh; exact hx
      | succ m => exact hfirst m u (by omega) (by simpa using hget')

theorem sapAttempt_st_irrel (env : Env) (q : PyStr) (r : Bool) :
    ∀ st, sapAttempt env q st r = sapAttempt env q none r := by
  intro st
  cases st with
  | none => rfl
  | some t =>
    by_cases ht : t = []
    · subst ht; rfl
    · have hov : applyOverride (some t) (parse_query q) =
          ParsedQuery.mk (parse_query q).song (parse_query q).artist t := by
        rw [show applyOverride (some t) (parse_query q) =
          if t = [] then parse_query q
          else { parse_query q with search_type := t } from rfl, if_neg ht]
      unfold sapAttempt
      rw [hov]
      rfl

theorem sapAttempt_shape (env : Env) (q : PyStr) (st : Option PyStr) (r : Bool) :
    ∃ tail res, sapAttempt env q st r =
        (Ev.search (parse_query q).song strTrack :: tail, res) ∧
      countSearch tail = 0 ∧
      (res = .ret true → countPlay tail = 1 ∧ countPlayOk tail = 1) ∧
      (res = .ret false → tail = []) ∧
      (res = .noDevices → tail = [.devices]) ∧
      (∀ e, res = .raised e → countPlayOk tail = 0 ∧ countPlay tail ≤ 1) := by
  cases hs : env.searchRes r with
  | error e =>
    refine ⟨[], .raised e, ?_, rfl, nofun, nofun, nofun,
      fun e' _ => ⟨rfl, by decide⟩⟩
    unfold sapAttempt
    simp only [hs, applyOverride_song]
  | ok items =>
    cases hr : rank (applyOverride st (parse_query q)) items with
    | none =>
      refine ⟨[], .ret false, ?_, rfl, nofun, fun _ => rfl, nofun, nofun⟩
      unfold sapAttempt
      simp only [hs, hr, applyOverride_song]
    | some best =>
      cases hd : env.devicesRes r with
      | error e =>
        refine ⟨[.devices], .raised e, ?_, rfl, nofun, nofun, nofun,
          fun e' _ => ⟨rfl, by decide⟩⟩
        unfold sapAttempt
        simp only [hs, hr, hd, applyOverride_song]
      | ok devs =>
        cases devs with
        | nil =>
          refine ⟨[.devices], .noDevices, ?_, rfl, nofun, nofun,
            fun _ => rfl, nofun⟩
          unfold sapAttempt
          simp only [hs, hr, hd, applyOverride_song, dispatchDevice]
        | cons d0 ds =>
          cases hp : env.playRes r
              (((d0 :: ds).find? (fun d => d.is_active)).getD d0).id best.uri with
          | error e =>
            refine ⟨[.devices,
              .play (((d0 :: ds).find? (fun d => d.is_active)).getD d0).id
                best.uri false], .raised e, ?_, rfl, nofun, nofun, nofun,
              fun e' _ => ⟨rfl, le_of_eq rfl⟩⟩
            unfold sapAttempt
            simp only [hs, hr, hd, hp, applyOverride_song, dispatchDevice]
          | ok u =>
            cases u
            refine ⟨[.devices,
              .play (((d0 :: ds).find? (fun d => d.is_active)).getD d0).id
                best.uri true], .ret true, ?_, rfl, fun _ => ⟨rfl, rfl⟩,
              nofun, nofun, nofun⟩
            unfold sapAttempt
            simp only [hs, hr, hd, hp, applyOverride_song, dispatchDevice]

theorem countPlay_cons_search (s ty : PyStr) (l : List Ev) :
    countPlay (Ev.search s ty :: l) = countPlay l := by
  simp [countPlay, List.countP_cons]

theorem countPlayOk_cons_search (s ty : PyStr) (l : List Ev) :
    countPlayOk (Ev.search s ty :: l) = countPlayOk l := by
  simp [countPlayOk, List.countP_cons]

theorem countSearch_cons_search (s ty : PyStr) (l : List Ev) :
    countSearch (Ev.search s ty :: l) = countSearch l + 1 := by
  simp [countSearch, List.countP_cons, isSearchEv]

theorem countPlay_append (l1 l2 : List Ev) :
    countPlay (l1 ++ l2) = countPlay l1 + countPlay l2 := by
  simp [countPlay, List.countP_append]

theorem countPlayOk_append (l1 l2 : List Ev) :
    countPlayOk (l1 ++ l2) = countPlayOk l1 + countPlayOk l2 := by
  simp [countPlayOk, List.countP_append]

theorem countSearch_append (l1 l2 : List Ev) :
    countSearch (l1 ++ l2) = countSearch l1 + countSearch l2 := by
  simp [countSearch, List.countP_append]

theorem filter_search_eq (l : List Ev) (h : countSearch l = 0) :
    l.filter isSearchEv = [] := by
  rw [List.filter_eq_nil_iff]
  intro a ha
  have h' := List.countP_eq_zero.mp h a ha
  simpa using h'

theorem filter_search_cons_search (s ty : PyStr) (l : List Ev) :
    (Ev.search s ty :: l).filter isSearchEv =
      Ev.search s ty :: l.filter isSearchEv := by
  simp [List.filter_cons, isSearchEv]

/-- Every run of `search_and_play` ends in one of finitely many shapes;
this collects the trace facts the claims need: play-command counts by
outcome, at most two searches, and every search request being for the
parsed song with the literal type `'track'`. -/
theorem cnt_nil_play : countPlay [] = 0 := rfl

theorem cnt_nil_playOk : countPlayOk [] = 0 := rfl

theorem cnt_dev_play : countPlay [Ev.devices] = 0 := rfl

theorem cnt_launch_play : countPlay [Ev.launch] = 0 := rfl

theorem cnt_dev_playOk : countPlayOk [Ev.devices] = 0 := rfl

theorem cnt_launch_playOk : countPlayOk [Ev.launch] = 0 := rfl

theorem cnt_dev_search : countSearch [Ev.devices] = 0 := rfl

theorem cnt_launch_search : countSearch [Ev.launch] = 0 := rfl

theorem searchAndPlay_cases (env : Env) (q : PyStr) (st : Option PyStr) :
    ∃ tr res, searchAndPlay env q st = (tr, res) ∧
      (res = .ok true → countPlay tr = 1 ∧ countPlayOk tr = 1) ∧
      (res = .ok false → countPlayOk tr = 0 ∧ countPlay tr ≤ 1) ∧
      (∀ e, res = .error e → countPlayOk tr = 0 ∧ countPlay tr ≤ 1) ∧
      countSearch tr ≤ 2 ∧
      (tr.filter isSearchEv).all
        (fun e => decide (e = Ev.search (parse_query q).song strTrack)) = true := by
  obtain ⟨tl1, r1, he1, hc1, ht1, hf1, hn1, hr1⟩ := sapAttempt_shape env q st false
  obtain ⟨tl2, r2, he2, hc2, ht2, hf2, hn2, hr2⟩ := sapAttempt_shape env q none true
  cases r1 with
  | ret b =>
    simp only [searchAndPlay, he1]
    refine ⟨_, _, rfl, ?_, ?_, ?_, ?_, ?_⟩
    · intro h
      have hb : b = true := by injection h
      subst hb
      obtain ⟨hp1, hp2⟩ := ht1 rfl
      simp only [countPlay_cons_search, countPlayOk_cons_search]
      exact ⟨hp1, hp2⟩
    · intro h
      have hb : b = false := by injection h
      subst hb
      have htl := hf1 rfl
      subst htl
      exact ⟨rfl, Nat.zero_le 1⟩
    · intro e h
      exact absurd h (by simp)
    · simp only [countSearch_cons_search]
      omega
    · rw [filter_search_cons_search, filter_search_eq tl1 hc1]
      simp
  | raised e =>
    simp only [searchAndPlay, he1]
    refine ⟨_, _, rfl, ?_, ?_, ?_, ?_, ?_⟩
    · intro h
      exact absurd h (by simp)
    · intro h
      exact absurd h (by simp)
    · intro e' h
      have he' : e = e' := by injection h
      subst he'
      obtain ⟨hp1, hp2⟩ := hr1 e rfl
      simp only [countPlay_cons_search, countPlayOk_cons_search]
      exact ⟨hp1, hp2⟩
    · simp only [countSearch_cons_search]
      omega
    · rw [filter_search_cons_search, filter_search_eq tl1 hc1]
      simp
  | noDevices =>
    have htl := hn1 rfl
    subst htl
    by_cases hl : env.launchOk = true
    · cases r2 with
      | ret b2 =>
        simp only [searchAndPlay, he1]
        rw [if_pos hl, he2]
        refine ⟨_, _, rfl, ?_, ?_, ?_, ?_, ?_⟩
        · intro h
          have hb : b2 = true := by injection h
          subst hb
          obtain ⟨hp1, hp2⟩ := ht2 rfl
          simp only [countPlay_append, countPlayOk_append,
            countPlay_cons_search, countPlayOk_cons_search, hp1, hp2,
            cnt_dev_play, cnt_launch_play, cnt_dev_playOk, cnt_launch_playOk]
          first
          | exact ⟨trivial, trivial⟩
          | exact ⟨trivial, by omega⟩
          | omega
        · intro h
          have hb : b2 = false := by injection h
          subst hb
          have htl2 := hf2 rfl
          subst htl2
          simp only [countPlay_append, countPlayOk_append,
            countPlay_cons_search, countPlayOk_cons_search, cnt_nil_play,
            cnt_nil_playOk,
            cnt_dev_play, cnt_launch_play, cnt_dev_playOk, cnt_launch_playOk]
          first
          | exact ⟨trivial, trivial⟩
          | exact ⟨trivial, by omega⟩
          | omega
        · intro e h
          exact absurd h (by simp)
        · simp only [countSearch_append, countSearch_cons_search, hc2,
            cnt_dev_search, cnt_launch_search]
          first
          | exact ⟨trivial, trivial⟩
          | exact ⟨trivial, by omega⟩
          | omega
        · simp only [List.filter_append, filter_search_cons_search,
            filter_search_eq tl2 hc2]
          simp [isSearchEv]
      | raised e2 =>
        simp only [searchAndPlay, he1]
        rw [if_pos hl, he2]
        refine ⟨_, _, rfl, ?_, ?_, ?_, ?_, ?_⟩
        · intro h
          exact absurd h (by simp)
        · intro _
          obtain ⟨hp1, hp2⟩ := hr2 e2 rfl
          simp only [countPlay_append, countPlayOk_append,
            countPlay_cons_search, countPlayOk_cons_search, hp1,
            cnt_dev_play, cnt_launch_play, cnt_dev_playOk, cnt_launch_playOk]
          first
          | exact ⟨trivial, trivial⟩
          | exact ⟨trivial, by omega⟩
          | omega
        · intro e h
          exact absurd h (by simp)
        · simp only [countSearch_append, countSearch_cons_search, hc2,
            cnt_dev_search, cnt_launch_search]
          first
          | exact ⟨trivial, trivial⟩
          | exact ⟨trivial, by omega⟩
          | omega
        · simp only [List.filter_append, filter_search_cons_search,
            filter_search_eq tl2 hc2]
          simp [isSearchEv]
      | noDevices =>
        have htl2 := hn2 rfl
        subst htl2
        simp only [searchAndPlay, he1]
        rw [if_pos hl, he2]
        refine ⟨_, _, rfl, ?_, ?_, ?_, ?_, ?_⟩
        · intro h
          exact absurd h (by simp)
        · intro _
          simp only [countPlay_append, countPlayOk_append,
            countPlay_cons_search, countPlayOk_cons_search,
            cnt_dev_play, cnt_launch_play, cnt_dev_playOk, cnt_launch_playOk]
          first
          | exact ⟨trivial, trivial⟩
          | exact ⟨trivial, by omega⟩
          | omega
        · intro e h
          exact absurd h (by simp)
        · simp only [countSearch_append, countSearch_cons_search,
            cnt_dev_search, cnt_launch_search]
          first
          | exact ⟨trivial, trivial⟩
          | exact ⟨trivial, by omega⟩
          | omega
        · simp only [List.filter_append, filter_search_cons_search]
          simp [isSearchEv]
    · simp only [searchAndPlay, he1]
      rw [if_neg hl]
      refine ⟨_, _, rfl, ?_, ?_, ?_, ?_, ?_⟩
      · intro h
        exact absurd h (by simp)
      · intro _
        simp only [countPlay_append, countPlayOk_append,
          countPlay_cons_search, countPlayOk_cons_search,
          cnt_dev_play, cnt_launch_play, cnt_dev_playOk, cnt_launch_playOk]
        first
        | exact ⟨trivial, trivial⟩
        | exact ⟨trivial, by omega⟩
        | omega
      · intro e h
        exact absurd h (by simp)
      · simp only [countSearch_append, countSearch_cons_search,
          cnt_dev_search, cnt_launch_search]
        first
        | exact ⟨trivial, trivial⟩
        | exact ⟨trivial, by omega⟩
        | omega
      · simp only [List.filter_append, filter_search_cons_search]
        simp [isSearchEv]

/-!
### The claims

One theorem per reviewed claim, each followed by the closed witness or
counterexample evaluation that grounds it on concrete inputs.
-/

/-- C1 counterexample: the artist guard is Python truthiness, not a null
test.  `parse_query("abc by  ")` yields the non-null empty-string artist
(group 2 captures the final whitespace and strips to empty), the guard
`if parsed_query['artist']:` is false for it, so the filter is skipped
and `rank` returns a candidate whose artist similarity to the parsed
artist is 0 ≤ 0.6. -/
theorem c1_counterexample :
    parse_query (strL "abc by  ") = ⟨strL "abc", some [], strTrack⟩ ∧
    rank ⟨strL "abc", some [], strTrack⟩
      [⟨strL "abc", [strL "w"], strL "u"⟩] =
      some ⟨strL "abc", [strL "w"], strL "u"⟩ ∧
    calculate_similarity [] (strL "w") ≤ mkRat 3 5 := by
  decide

/-- C1 amended: with a truthy parsed artist (non-null and non-empty),
`rank` never returns a candidate whose primary artist's name has
similarity ≤ 0.6 to the parsed artist, and when the artist filter
removes every candidate the result is `none` (the unfiltered list is
never used as a fallback). -/
theorem c1_rank_artist_filter (p : ParsedQuery) (ar : PyStr) (ts : List Track)
    (hart : p.artist = some ar) (hne : ar ≠ []) :
    (∀ t, rank p ts = some t →
      ¬ calculate_similarity ar t.artists.headI ≤ mkRat 3 5) ∧
    (filterByArtist p ts = [] → rank p ts = none) := by
  constructor
  · intro t h
    have hmem := rank_mem p ts t h
    have hfil : filterByArtist p ts = ts.filter (fun track =>
        decide (mkRat 3 5 < calculate_similarity ar track.artists.headI)) := by
      unfold filterByArtist
      rw [hart]
      exact if_neg hne
    rw [hfil] at hmem
    exact not_le.mpr (of_decide_eq_true (List.mem_filter.mp hmem).2)
  · intro h
    unfold rank
    rw [h]
    rfl

/-- Witness for the amended C1: a parsed query with the non-empty artist
`"w"` on a one-candidate list. -/
theorem c1_rank_artist_filter_witness :
    (∀ t, rank ⟨strL "abc", some (strL "w"), strTrack⟩ [trkAbc] = some t →
      ¬ calculate_similarity (strL "w") t.artists.headI ≤ mkRat 3 5) ∧
    (filterByArtist ⟨strL "abc", some (strL "w"), strTrack⟩ [trkAbc] = [] →
      rank ⟨strL "abc", some (strL "w"), strTrack⟩ [trkAbc] = none) :=
  c1_rank_artist_filter ⟨strL "abc", some (strL "w"), strTrack⟩ (strL "w")
    [trkAbc] rfl (by decide)

/-- C2 counterexample: a non-empty candidate list (unchanged by the
artist filter) whose only candidate has track-name similarity 0 to the
parsed song yields `none`, so `none` is not equivalent to "the filtered
candidate list is empty". -/
theorem c2_counterexample :
    rank ⟨strL "abc", none, strTrack⟩ [⟨strL "xyz", [strL "w"], strL "u"⟩] =
      none ∧
    filterByArtist ⟨strL "abc", none, strTrack⟩
      [⟨strL "xyz", [strL "w"], strL "u"⟩] ≠ [] := by
  decide

/-- C2 amended: `rank` returns `none` exactly when every candidate of the
artist-filtered list (vacuously, when that list is empty) has track-name
similarity 0 to the parsed song. -/
theorem c2_rank_none_characterization (p : ParsedQuery) (ts : List Track) :
    rank p ts = none ↔
      ∀ t ∈ filterByArtist p ts, calculate_similarity p.song t.name = 0 :=
  rank_none_iff p ts

/-- C3 counterexample: on a single-candidate list whose candidate has
similarity 0, that candidate is the maximum-similarity candidate, yet
`rank` returns `none` rather than the first-seen maximum: the strict `>`
against the 0 baseline drops all-zero candidate lists. -/
theorem c3_counterexample :
    rank ⟨strL "aa", none, strTrack⟩ [⟨strL "bb", [strL "w"], strL "u"⟩] =
      none ∧
    filterByArtist ⟨strL "aa", none, strTrack⟩
      [⟨strL "bb", [strL "w"], strL "u"⟩] ≠ [] ∧
    (∀ t ∈ filterByArtist ⟨strL "aa", none, strTrack⟩
        [⟨strL "bb", [strL "w"], strL "u"⟩],
      calculate_similarity (strL "aa") t.name ≤
        calculate_similarity (strL "aa") (strL "bb")) := by
  decide

/-- C3 amended: whenever some filtered candidate has positive song
similarity, `rank` returns the first-seen maximum: a candidate of
maximal similarity such that all earlier candidates are strictly
smaller.  `rank` is a pure function of its arguments, so the selection
is deterministic. -/
theorem c3_first_seen_max (p : ParsedQuery) (ts : List Track)
    (hex : ∃ t ∈ filterByArtist p ts, 0 < calculate_similarity p.song t.name) :
    ∃ n t, (filterByArtist p ts).get? n = some t ∧ rank p ts = some t ∧
      (∀ u ∈ filterByArtist p ts, calculate_similarity p.song u.name ≤
        calculate_similarity p.song t.name) ∧
      (∀ m u, m < n → (filterByArtist p ts).get? m = some u →
        calculate_similarity p.song u.name <
          calculate_similarity p.song t.name) := by
  obtain ⟨n, t, hget, hsel, _, hmax, hfirst⟩ :=
    selectGo_first_max p.song (filterByArtist p ts) none 0 hex
  exact ⟨n, t, hget, hsel, hmax, hfirst⟩

/-- Witness for the amended C3: a one-candidate list of similarity 1. -/
theorem c3_first_seen_max_witness :
    ∃ n t, (filterByArtist ⟨strL "abc", none, strTrack⟩ [trkAbc]).get? n =
        some t ∧
      rank ⟨strL "abc", none, strTrack⟩ [trkAbc] = some t ∧
      (∀ u ∈ filterByArtist ⟨strL "abc", none, strTrack⟩ [trkAbc],
        calculate_similarity (strL "abc") u.name ≤
          calculate_similarity (strL "abc") t.name) ∧
      (∀ m u, m < n →
        (filterByArtist ⟨strL "abc", none, strTrack⟩ [trkAbc]).get? m =
          some u →
        calculate_similarity (strL "abc") u.name <
          calculate_similarity (strL "abc") t.name) :=
  c3_first_seen_max ⟨strL "abc", none, strTrack⟩ [trkAbc]
    ⟨trkAbc, by decide, by decide⟩

/-- C4: the dispatcher targets the first device in list order whose
`is_active` is true, else the first device; in the two-device scenario
(`d1` inactive, `d2` active) the play command goes to `d2` and the
attempt returns true. -/
theorem c4_dispatch_policy :
    (∀ (devs : List Device) (d : Device),
      devs.find? (fun d => d.is_active) = some d →
      dispatchDevice devs = some d ∧
      ∃ n, devs.get? n = some d ∧ d.is_active = true ∧
        (∀ m u, m < n → devs.get? m = some u → u.is_active = false)) ∧
    (∀ (d0 : Device) (ds : List Device),
      (d0 :: ds).find? (fun d => d.is_active) = none →
      dispatchDevice (d0 :: ds) = some d0) ∧
    sapAttempt env4 (strL "abc") none false =
      ([Ev.search (strL "abc") strTrack, Ev.devices,
        Ev.play (strL "d2") (strL "uri1") true], AttemptRes.ret true) := by
  refine ⟨?_, ?_, by decide⟩
  · intro devs d h
    refine ⟨?_, find?_active_first devs d h⟩
    cases devs with
    | nil => simp at h
    | cons d0 ds =>
      show some (((d0 :: ds).find? (fun d => d.is_active)).getD d0) = some d
      rw [h]
      rfl
  · intro d0 ds h
    show some (((d0 :: ds).find? (fun d => d.is_active)).getD d0) = some d0
    rw [h]
    rfl

/-- Witness for C4: the two-device scenario list. -/
theorem c4_dispatch_policy_witness :
    dispatchDevice [d1Dev, d2Dev] = some d2Dev ∧
    ∃ n, [d1Dev, d2Dev].get? n = some d2Dev ∧ d2Dev.is_active = true ∧
      (∀ m u, m < n → [d1Dev, d2Dev].get? m = some u →
        u.is_active = false) :=
  c4_dispatch_policy.1 [d1Dev, d2Dev] d2Dev (by decide)

/-- C5: the recursion is bounded to one retry: every run issues at most
two search calls; when the first attempt finds no devices and the app
launch succeeds, the run is exactly the first attempt, the launch, and
one retried attempt whose own failure (a second device absence
included) is final; in the persistent no-device scenario the result is
false after exactly two attempts. -/
theorem c5_retry_bounded :
    (∀ (env : Env) (q : PyStr) (st : Option PyStr),
      countSearch (searchAndPlay env q st).1 ≤ 2) ∧
    (∀ (env : Env) (q : PyStr) (st : Option PyStr) (tr1 : List Ev),
      sapAttempt env q st false = (tr1, AttemptRes.noDevices) →
      env.launchOk = true →
      searchAndPlay env q st =
        (tr1 ++ [Ev.launch] ++ (sapAttempt env q none true).1,
          match (sapAttempt env q none true).2 with
          | AttemptRes.ret b => Except.ok b
          | AttemptRes.raised _ => Except.ok false
          | AttemptRes.noDevices => Except.ok false)) ∧
    searchAndPlay env5 (strL "abc") none =
      ([Ev.search (strL "abc") strTrack, Ev.devices, Ev.launch,
        Ev.search (strL "abc") strTrack, Ev.devices], Except.ok false) := by
  refine ⟨?_, ?_, by decide⟩
  · intro env q st
    obtain ⟨tr, res, heq, _, _, _, hcnt, _⟩ := searchAndPlay_cases env q st
    rw [heq]
    exact hcnt
  · intro env q st tr1 h1 hl
    rcases h2 : sapAttempt env q none true with ⟨tr2, r2⟩
    simp only [searchAndPlay, h1, h2]
    rw [if_pos hl]
    cases r2 <;> rfl

/-- Witness for C5: the retry decomposition in the persistent no-device
scenario. -/
theorem c5_retry_bounded_witness :
    searchAndPlay env5 (strL "abc") none =
      ([Ev.search (strL "abc") strTrack, Ev.devices] ++ [Ev.launch] ++
        (sapAttempt env5 (strL "abc") none true).1,
        match (sapAttempt env5 (strL "abc") none true).2 with
        | AttemptRes.ret b => Except.ok b
        | AttemptRes.raised _ => Except.ok false
        | AttemptRes.noDevices => Except.ok false) :=
  c5_retry_bounded.2.1 env5 (strL "abc") none
    [Ev.search (strL "abc") strTrack, Ev.devices] (by decide) rfl

/-- C6 counterexample: in `env6` the retried attempt's search raises a
TransportError (payload 7), yet `search_and_play` returns `False`: the
`except Exception` block around the launch-and-retry catches every error
of the retried attempt, so such TransportErrors do not propagate. -/
theorem c6_counterexample :
    env6.searchRes true = Except.error 7 ∧
    searchAndPlay env6 (strL "abc") none =
      ([Ev.search (strL "abc") strTrack, Ev.devices, Ev.launch,
        Ev.search (strL "abc") strTrack], Except.ok false) := by
  decide

/-- C6 amended: a TransportError raised during the original attempt
propagates to the caller uncaught, but one raised during the retried
attempt is caught by the `except Exception` block of the
launch-and-retry and becomes a `False` return. -/
theorem c6_transport_propagation (env : Env) (q : PyStr) (st : Option PyStr) :
    (∀ tr e, sapAttempt env q st false = (tr, AttemptRes.raised e) →
      searchAndPlay env q st = (tr, Except.error e)) ∧
    (∀ tr tr2 e, sapAttempt env q st false = (tr, AttemptRes.noDevices) →
      env.launchOk = true →
      sapAttempt env q none true = (tr2, AttemptRes.raised e) →
      searchAndPlay env q st =
        (tr ++ [Ev.launch] ++ tr2, Except.ok false)) := by
  constructor
  · intro tr e h
    simp only [searchAndPlay, h]
  · intro tr tr2 e h hl h2
    simp only [searchAndPlay, h, h2]
    rw [if_pos hl]

/-- Witness for the amended C6: the `env6` scenario. -/
theorem c6_transport_propagation_witness :
    searchAndPlay env6 (strL "abc") none =
      ([Ev.search (strL "abc") strTrack, Ev.devices] ++ [Ev.launch] ++
        [Ev.search (strL "abc") strTrack], Except.ok false) :=
  (c6_transport_propagation env6 (strL "abc") none).2
    [Ev.search (strL "abc") strTrack, Ev.devices]
    [Ev.search (strL "abc") strTrack] 7 (by decide) rfl (by decide)

/-- C7: `parse_query` tries the `by|from|of` pattern, then the dash
pattern; the first match yields the two groups, stripped; with no match
it returns the stripped query with no artist, so it never fails; the
three spec examples evaluate as stated. -/
theorem c7_parse_query :
    (∀ q g, matchA q = some g →
      parse_query q = ⟨pyStrip g.1, some (pyStrip g.2), strTrack⟩) ∧
    (∀ q g, matchA q = none → matchB q = some g →
      parse_query q = ⟨pyStrip g.1, some (pyStrip g.2), strTrack⟩) ∧
    (∀ q, matchA q = none → matchB q = none →
      parse_query q = ⟨pyStrip q, none, strTrack⟩) ∧
    parse_query (strL "Imagine by John Lennon") =
      ⟨strL "Imagine", some (strL "John Lennon"), strTrack⟩ ∧
    parse_query (strL "Imagine - John Lennon") =
      ⟨strL "Imagine", some (strL "John Lennon"), strTrack⟩ ∧
    parse_query (strL "Imagine") = ⟨strL "Imagine", none, strTrack⟩ := by
  refine ⟨?_, ?_, ?_, by decide, by decide, by decide⟩
  · intro q g h
    simp only [parse_query, h]
  · intro q g hA hB
    simp only [parse_query, hA, hB]
  · intro q hA hB
    simp only [parse_query, hA, hB]

/-- Witness for C7: a query matched by neither pattern. -/
theorem c7_parse_query_witness :
    matchA (strL "Imagine") = none ∧ matchB (strL "Imagine") = none ∧
    parse_query (strL "Imagine") =
      ⟨pyStrip (strL "Imagine"), none, strTrack⟩ :=
  ⟨by decide, by decide,
    c7_parse_query.2.2.1 (strL "Imagine") (by decide) (by decide)⟩

/-- C8: the similarity is difflib's ratio on the lower-cased inputs
(twice the matching-blocks total over the summed lengths), lies in
[0,1], is invariant under lower-casing the inputs, and equals 1 on any
non-empty string against itself. -/
theorem c8_similarity_metric :
    (∀ a b : PyStr, calculate_similarity a b =
      if (pyLower a).length + (pyLower b).length = 0 then 1
      else ((2 * matchesTotal (pyLower a) (pyLower b) : ℕ) : ℚ) /
        (((pyLower a).length + (pyLower b).length : ℕ) : ℚ)) ∧
    (∀ a b, 0 ≤ calculate_similarity a b ∧ calculate_similarity a b ≤ 1) ∧
    (∀ a b, calculate_similarity a b =
      calculate_similarity (pyLower a) (pyLower b)) ∧
    (∀ a, a ≠ [] → calculate_similarity a a = 1) := by
  refine ⟨?_,
    fun a b => ⟨calculate_similarity_nonneg a b,
      calculate_similarity_le_one a b⟩,
    calculate_similarity_lower, calculate_similarity_self⟩
  intro a b
  show ratioQ (matchesTotal (pyLower a) (pyLower b))
      ((pyLower a).length + (pyLower b).length) = _
  unfold ratioQ
  split_ifs with h
  · rfl
  · rw [Rat.mkRat_eq_div]
    push_cast
    ring

/-- Witness for C8: similarity of `"imagine"` with itself. -/
theorem c8_similarity_metric_witness :
    strL "imagine" ≠ [] ∧
    calculate_similarity (strL "imagine") (strL "imagine") = 1 :=
  ⟨by decide, c8_similarity_metric.2.2.2 (strL "imagine") (by decide)⟩

/-- C9 counterexample: in `env9` the retried attempt reaches an active
device and its play call raises; the raised error is caught and the run
returns `False`, yet one play command was issued: a false result does
not imply zero issued play commands. -/
theorem c9_counterexample :
    (searchAndPlay env9 (strL "abc") none).2 = Except.ok false ∧
    countPlay (searchAndPlay env9 (strL "abc") none).1 = 1 := by
  decide

/-- C9 amended: on a `True` result exactly one play command was issued
and it succeeded; on any other outcome no play command succeeded and at
most one was issued (a failed retried-attempt call whose error was
caught); and when no track is found the first attempt returns `False`
with no device lookup and no play command. -/
theorem c9_play_counts (env : Env) (q : PyStr) (st : Option PyStr) :
    (∀ tr, searchAndPlay env q st = (tr, Except.ok true) →
      countPlay tr = 1 ∧ countPlayOk tr = 1) ∧
    (∀ tr res, searchAndPlay env q st = (tr, res) → res ≠ Except.ok true →
      countPlayOk tr = 0 ∧ countPlay tr ≤ 1) ∧
    (∀ tr, sapAttempt env q st false = (tr, AttemptRes.ret false) →
      searchAndPlay env q st = (tr, Except.ok false) ∧
      countDevices tr = 0 ∧ countPlay tr = 0) := by
  obtain ⟨tr0, res0, heq, htrue, hfalse, herr, _, _⟩ :=
    searchAndPlay_cases env q st
  refine ⟨?_, ?_, ?_⟩
  · intro tr h
    rw [heq] at h
    have h1 : tr0 = tr := congrArg Prod.fst h
    have h2 : res0 = Except.ok true := congrArg Prod.snd h
    subst h1
    exact htrue h2
  · intro tr res h hne
    rw [heq] at h
    have h1 : tr0 = tr := congrArg Prod.fst h
    have h2 : res0 = res := congrArg Prod.snd h
    subst h1
    subst h2
    cases res0 with
    | ok b =>
      cases b with
      | true => exact absurd rfl hne
      | false => exact hfalse rfl
    | error e => exact herr e rfl
  · intro tr h
    obtain ⟨tail, res, heq2, _, _, hf, _, _⟩ := sapAttempt_shape env q st false
    rw [h] at heq2
    have h1 : tr = Ev.search (parse_query q).song strTrack :: tail :=
      congrArg Prod.fst heq2
    have h2 : AttemptRes.ret false = res := congrArg Prod.snd heq2
    have htail : tail = [] := hf h2.symm
    subst htail
    subst h1
    refine ⟨?_, rfl, rfl⟩
    simp only [searchAndPlay, h]

/-- Witness for the amended C9: the successful two-device scenario. -/
theorem c9_play_counts_witness :
    countPlay [Ev.search (strL "abc") strTrack, Ev.devices,
      Ev.play (strL "d2") (strL "uri1") true] = 1 ∧
    countPlayOk [Ev.search (strL "abc") strTrack, Ev.devices,
      Ev.play (strL "d2") (strL "uri1") true] = 1 :=
  (c9_play_counts env4 (strL "abc") none).1
    [Ev.search (strL "abc") strTrack, Ev.devices,
      Ev.play (strL "d2") (strL "uri1") true] (by decide)

/-- C10: the `search_type` argument has no observable effect: two runs
differing only in it produce identical traces and results, and every
search event of any run carries the literal type `'track'` and the
parsed song as query. -/
theorem c10_search_type_unused :
    (∀ (env : Env) (q : PyStr) (s1 s2 : Option PyStr),
      searchAndPlay env q s1 = searchAndPlay env q s2) ∧
    (∀ (env : Env) (q : PyStr) (st : Option PyStr),
      ((searchAndPlay env q st).1.filter isSearchEv).all
        (fun e => decide (e = Ev.search (parse_query q).song strTrack)) =
        true) := by
  constructor
  · intro env q s1 s2
    unfold searchAndPlay
    rw [sapAttempt_st_irrel env q false s1, sapAttempt_st_irrel env q false s2]
  · intro env q st
    obtain ⟨tr, res, heq, _, _, _, _, hall⟩ := searchAndPlay_cases env q st
    rw [heq]
    exact hall
